import Mathlib

set_option maxRecDepth 4000

/-!
Shallow embedding of the secrus8 CHIP-8 interpreter.

Sources embedded here:
- `src/src/state.rs` (`State`), `src/src/display.rs` (`CLIDisplay`),
  `src/src/chip_core.rs` (`Core::step`, `Core::update_timers`, `Core::run`,
  `Core::load_rom`), `src/src/parser.rs` (`Instruction::from_opcode`),
  `src/src/lib.rs` (`Error`).
- The crate's `consts` module is not present under `src/`, but `src/src/main.rs`
  defines the identical constants (`SCREEN_WIDTH = 64`, `SCREEN_HEIGHT = 32`,
  `TOTAL_RAM_SIZE = 4096`, `INITIAL_PC = 512`, `FONT_DATA`), and `main.rs` also
  contains a byte-for-byte copy of `Core`/`State`/`CLIDisplay`; the constants
  are taken from there.

Machine integers are modelled as `Nat` with explicit `% 256` / `% 65536`
where the Rust code relies on wrapping (`overflowing_add`, `overflowing_sub`,
`u8` shifts, `u16` wrapping add).  Rust panics (`expect`, `unimplemented!`,
out-of-bounds indexing/slicing) are modelled as a distinguished `panic`
outcome of a step, separate from the `Err(..)` value the Rust function can
return.  The `Vec<u16>` call stack is modelled as a `List Nat` whose head is
the vector's last (most recently pushed) element.  The random byte drawn in
the `CXNN` handler is passed in as an explicit argument.
-/

namespace Chip8

/-- `SCREEN_WIDTH` from the constants (duplicated in `main.rs`). -/
def SCREEN_WIDTH : Nat := 64

/-- `SCREEN_HEIGHT` from the constants (duplicated in `main.rs`). -/
def SCREEN_HEIGHT : Nat := 32

/-- `TOTAL_RAM_SIZE` from the constants (duplicated in `main.rs`). -/
def TOTAL_RAM_SIZE : Nat := 4096

/-- `INITIAL_PC` from the constants (duplicated in `main.rs`). -/
def INITIAL_PC : Nat := 512

/-- `FONT_DATA`: the 80-byte glyph table (16 glyphs of 5 bytes). -/
def FONT_DATA : List Nat :=
  [0xF0, 0x90, 0x90, 0x90, 0xF0,
   0x20, 0x60, 0x20, 0x20, 0x70,
   0xF0, 0x10, 0xF0, 0x80, 0xF0,
   0xF0, 0x10, 0xF0, 0x10, 0xF0,
   0x90, 0x90, 0xF0, 0x10, 0x10,
   0xF0, 0x80, 0xF0, 0x10, 0xF0,
   0xF0, 0x80, 0xF0, 0x90, 0xF0,
   0xF0, 0x10, 0x20, 0x40, 0x40,
   0xF0, 0x90, 0xF0, 0x90, 0xF0,
   0xF0, 0x90, 0xF0, 0x10, 0xF0,
   0xF0, 0x90, 0xF0, 0x90, 0x90,
   0xE0, 0x90, 0xE0, 0x90, 0xE0,
   0xF0, 0x80, 0x80, 0x80, 0xF0,
   0xE0, 0x90, 0x90, 0x90, 0xE0,
   0xF0, 0x80, 0xF0, 0x80, 0xF0,
   0xF0, 0x80, 0xF0, 0x80, 0x80]

/-- `byte_to_bits` from `display.rs`: bits of a byte, most significant first. -/
def byte_to_bits (b : Nat) : List Nat :=
  (List.range 8).map (fun i => (b >>> (7 - i)) &&& 1)

/-- The pixel grid of `CLIDisplay`: 32 rows of 64 cells. -/
abbrev Display := List (List Nat)

/-- `CLIDisplay::new` / `CLIDisplay::clear`: the all-zero grid. -/
def newDisplay : Display := List.replicate 32 (List.replicate 64 0)

/-- Read one grid cell (`self.screen[row][col]`). -/
def getCell (scr : Display) (r c : Nat) : Nat := (scr.getD r []).getD c 0

/-- Write one grid cell (`self.screen[row][col] = v`). -/
def setCell (scr : Display) (r c v : Nat) : Display :=
  scr.set r ((scr.getD r []).set c v)

/-- Inner loop of `CLIDisplay::draw`: one sprite row.  `col` starts at `x`
and advances with each bit; the loop breaks as soon as `col ≥ 64`. -/
def drawCols : Display → Nat → Nat → List Nat → Bool → Display × Bool
  | scr, _, _, [], did => (scr, did)
  | scr, row, col, bit :: rest, did =>
    if 64 ≤ col then (scr, did)
    else
      let next :=
        if bit = 1 then
          if getCell scr row col = 1 then (setCell scr row col 0, true)
          else (setCell scr row col 1, did)
        else (scr, did)
      drawCols next.1 row (col + 1) rest next.2

/-- Outer loop of `CLIDisplay::draw`: one iteration per sprite byte; the
loop breaks as soon as `row ≥ 32`. -/
def drawRows : Display → Nat → Nat → List Nat → Bool → Display × Bool
  | scr, _, _, [], did => (scr, did)
  | scr, x, row, data :: rest, did =>
    if 32 ≤ row then (scr, did)
    else
      let next := drawCols scr row x (byte_to_bits data) did
      drawRows next.1 x (row + 1) rest next.2

/-- `CLIDisplay::draw` from `display.rs`.  Returns the new grid and the
collision flag (`did_switch`: some pixel flipped from 1 to 0). -/
def draw (reg_x reg_y : Nat) (sprite : List Nat) (scr : Display) : Display × Bool :=
  drawRows scr (reg_x % SCREEN_WIDTH) (reg_y % SCREEN_HEIGHT) sprite false

/-- `State` from `state.rs`.  `stack` holds the `Vec<u16>` with the most
recently pushed element first. -/
structure State where
  ram : List Nat
  stack : List Nat
  pc : Nat
  registers : List Nat
  index_register : Nat
  delay_timer : Nat
  sound_timer : Nat
deriving DecidableEq

/-- `copy_from_slice` into a list at offset `start`. -/
def copy_into (dest : List Nat) (start : Nat) (src : List Nat) : List Nat :=
  dest.take start ++ src ++ dest.drop (start + src.length)

/-- `State::new`: zeroed RAM with the font table at 0x50..=0x9F, empty stack,
`pc = INITIAL_PC`, zeroed registers and timers. -/
def State.new : State :=
  { ram := copy_into (List.replicate TOTAL_RAM_SIZE 0) 0x50 FONT_DATA
  , stack := []
  , pc := INITIAL_PC
  , registers := List.replicate 16 0
  , index_register := 0
  , delay_timer := 0
  , sound_timer := 0 }

/-- `Core::load_rom`: copy the ROM into RAM starting at `INITIAL_PC`. -/
def load_rom (s : State) (rom : List Nat) : State :=
  { s with ram := copy_into s.ram INITIAL_PC rom }

/-- The ways a single `Core::step` can abort the process (Rust panics). -/
inductive PanicKind
  | emptyStack
  | notImplemented
  | outOfBounds
deriving DecidableEq

/-- Outcome of one `Core::step`: `Ok(Continue)`, `Ok(Halt)`, `Err(Chip8Error)`
(each with the state and display as mutated so far), or a panic. -/
inductive StepOut
  | cont (s : State) (d : Display)
  | halt (s : State) (d : Display)
  | err (s : State) (d : Display)
  | panic (k : PanicKind)
deriving DecidableEq

/-- `Core::update_timers`: each nonzero timer is decremented by one (the
sound beep is I/O only and carries no state). -/
def update_timers (s : State) : State :=
  let s1 := if 0 < s.delay_timer then { s with delay_timer := s.delay_timer - 1 } else s
  if 0 < s1.sound_timer then { s1 with sound_timer := s1.sound_timer - 1 } else s1

/-- The `FX33` write sequence: hundreds digit at `i`, tens at `i+1`,
ones at `i+2`. -/
def bcd_write (ram : List Nat) (i v : Nat) : List Nat :=
  ((ram.set i (v / 100)).set (i + 1) (v / 10 % 10)).set (i + 2) (v % 10)

/-- The `FX55` loop `for ri in 0..=x`: write `V0..Vx` to `ram[i..=i+x]`,
in ascending register order. -/
def dump_loop (ram regs : List Nat) (i : Nat) : Nat → List Nat
  | 0 => ram.set i (regs.getD 0 0)
  | k + 1 => (dump_loop ram regs i k).set (i + (k + 1)) (regs.getD (k + 1) 0)

/-- The `FX65` loop `for ri in 0..=x`: load `ram[i..=i+x]` into `V0..Vx`,
in ascending register order. -/
def load_loop (ram regs : List Nat) (i : Nat) : Nat → List Nat
  | 0 => regs.set 0 (ram.getD i 0)
  | k + 1 => (load_loop ram regs i k).set (k + 1) (ram.getD (i + (k + 1)) 0)

/-- The dispatch `match` of `Core::step` (`chip_core.rs`), written as the
same ordered sequence of nibble-pattern tests.  `s` already has `pc`
advanced by 2; `ia` is the address the instruction was fetched from;
`r` is the random byte for `CXNN`.  Register values are `< 256` in any
state reachable from `State.new`, which the wrapping arithmetic below
(`% 256`, `vx + 256 - vy`) relies on, exactly as the `u8` type does in
the source. -/
def execute (s : State) (d : Display) (r ia n1 n2 n3 n4 b2 : Nat) : StepOut :=
  if n1 = 0 ∧ n2 = 0 ∧ n3 = 0xE ∧ n4 = 0 then
    .cont s newDisplay
  else if n1 = 0 ∧ n2 = 0 ∧ n3 = 0xE ∧ n4 = 0xE then
    match s.stack with
    | [] => .panic .emptyStack
    | a :: rest => .cont { s with pc := a, stack := rest } d
  else if n1 = 1 then
    if ia = (n2 <<< 8) ||| b2 then .halt s d else .cont s d
  else if n1 = 2 then
    .cont { s with stack := s.pc :: s.stack, pc := (n2 <<< 8) ||| b2 } d
  else if n1 = 3 then
    if s.registers.getD n2 0 = b2 then .cont { s with pc := s.pc + 2 } d else .cont s d
  else if n1 = 4 then
    if s.registers.getD n2 0 ≠ b2 then .cont { s with pc := s.pc + 2 } d else .cont s d
  else if n1 = 5 ∧ n4 = 0 then
    if s.registers.getD n2 0 = s.registers.getD n3 0 then
      .cont { s with pc := s.pc + 2 } d
    else .cont s d
  else if n1 = 6 then
    .cont { s with registers := s.registers.set n2 b2 } d
  else if n1 = 7 then
    .cont { s with registers := s.registers.set n2 ((s.registers.getD n2 0 + b2) % 256) } d
  else if n1 = 8 ∧ n4 = 0 then
    .cont { s with registers := s.registers.set n2 (s.registers.getD n3 0) } d
  else if n1 = 8 ∧ n4 = 1 then
    .cont { s with registers := s.registers.set n2 (s.registers.getD n2 0 ||| s.registers.getD n3 0) } d
  else if n1 = 8 ∧ n4 = 2 then
    .cont { s with registers := s.registers.set n2 (s.registers.getD n2 0 &&& s.registers.getD n3 0) } d
  else if n1 = 8 ∧ n4 = 3 then
    .cont { s with registers := s.registers.set n2 (s.registers.getD n2 0 ^^^ s.registers.getD n3 0) } d
  else if n1 = 8 ∧ n4 = 4 then
    let vx := s.registers.getD n2 0
    let vy := s.registers.getD n3 0
    let regs := (s.registers.set n2 ((vx + vy) % 256)).set 15 (if 255 < vx + vy then 1 else 0)
    .cont { s with registers := regs } d
  else if n1 = 8 ∧ n4 = 5 then
    let vx := s.registers.getD n2 0
    let vy := s.registers.getD n3 0
    let regs := (s.registers.set n2 ((vx + 256 - vy) % 256)).set 15 (if vx < vy then 0 else 1)
    .cont { s with registers := regs } d
  else if n1 = 8 ∧ n4 = 6 then
    let r1 := s.registers.set 15 (s.registers.getD n2 0 &&& 1)
    .cont { s with registers := r1.set n2 (r1.getD n2 0 >>> 1) } d
  else if n1 = 8 ∧ n4 = 7 then
    let vx := s.registers.getD n2 0
    let vy := s.registers.getD n3 0
    let regs := (s.registers.set n2 ((vy + 256 - vx) % 256)).set 15 (if vy < vx then 0 else 1)
    .cont { s with registers := regs } d
  else if n1 = 8 ∧ n4 = 0xE then
    let r1 := s.registers.set 15 (s.registers.getD n2 0 >>> 7)
    .cont { s with registers := r1.set n2 ((r1.getD n2 0 <<< 1) % 256) } d
  else if n1 = 9 ∧ n4 = 0 then
    if s.registers.getD n2 0 ≠ s.registers.getD n3 0 then
      .cont { s with pc := s.pc + 2 } d
    else .cont s d
  else if n1 = 0xA then
    .cont { s with index_register := (n2 <<< 8) ||| b2 } d
  else if n1 = 0xB then
    .cont { s with pc := s.registers.getD 0 0 + ((n2 <<< 8) ||| b2) } d
  else if n1 = 0xC then
    .cont { s with registers := s.registers.set n2 (r &&& b2) } d
  else if n1 = 0xD then
    if s.index_register + n4 ≤ s.ram.length then
      let sprite := (s.ram.drop s.index_register).take n4
      let res := draw (s.registers.getD n2 0) (s.registers.getD n3 0) sprite d
      .cont { s with registers := s.registers.set 15 (if res.2 then 1 else 0) } res.1
    else .panic .outOfBounds
  else if n1 = 0xE ∧ n3 = 9 ∧ n4 = 0xE then
    .panic .notImplemented
  else if n1 = 0xE ∧ n3 = 0xA ∧ n4 = 1 then
    .panic .notImplemented
  else if n1 = 0xF ∧ n3 = 0 ∧ n4 = 7 then
    let s1 := update_timers s
    .cont { s1 with registers := s1.registers.set n2 s1.delay_timer } d
  else if n1 = 0xF ∧ n3 = 1 ∧ n4 = 5 then
    .cont { s with delay_timer := s.registers.getD n2 0 } d
  else if n1 = 0xF ∧ n3 = 1 ∧ n4 = 8 then
    .cont { s with sound_timer := s.registers.getD n2 0 } d
  else if n1 = 0xF ∧ n3 = 2 ∧ n4 = 9 then
    .cont { s with index_register := 0x50 + s.registers.getD n2 0 * 5 } d
  else if n1 = 0xF ∧ n3 = 3 ∧ n4 = 3 then
    if s.index_register + 2 < s.ram.length then
      .cont { s with ram := bcd_write s.ram s.index_register (s.registers.getD n2 0) } d
    else .panic .outOfBounds
  else if n1 = 0xF ∧ n3 = 1 ∧ n4 = 0xE then
    .cont { s with index_register := (s.index_register + s.registers.getD n2 0) % 65536 } d
  else if n1 = 0xF ∧ n3 = 5 ∧ n4 = 5 then
    if s.index_register + n2 < s.ram.length then
      .cont { s with ram := dump_loop s.ram s.registers s.index_register n2 } d
    else .panic .outOfBounds
  else if n1 = 0xF ∧ n3 = 6 ∧ n4 = 5 then
    if s.index_register + n2 < s.ram.length then
      .cont { s with registers := load_loop s.ram s.registers s.index_register n2 } d
    else .panic .outOfBounds
  else
    .err s d

/-- `Core::step`: fetch the two bytes at `pc` (panicking on an out-of-range
index, as slice indexing does), advance `pc` by 2, split into nibbles and
dispatch. -/
def step (s : State) (d : Display) (r : Nat) : StepOut :=
  if s.pc + 1 < s.ram.length then
    execute { s with pc := s.pc + 2 } d r s.pc
      (s.ram.getD s.pc 0 >>> 4) (s.ram.getD s.pc 0 &&& 0xF)
      (s.ram.getD (s.pc + 1) 0 >>> 4) (s.ram.getD (s.pc + 1) 0 &&& 0xF)
      (s.ram.getD (s.pc + 1) 0)
  else .panic .outOfBounds

/-- Terminal outcome of `Core::run`. -/
inductive RunOutcome
  | halted (s : State) (d : Display)
  | faulted (s : State) (d : Display)
  | panicked (k : PanicKind)
deriving DecidableEq

/-- `INSTRUCTIONS_PER_FRAME = TARGET_IPS / TARGET_FPS = 700 / 60 = 11`. -/
def INSTRUCTIONS_PER_FRAME : Nat := 700 / 60

/-- The inner per-frame loop of `Core::run`: execute `k` steps, stopping
early on halt, error, or panic.  `rng` supplies the random byte of the
`t`-th executed instruction. -/
def runBatch (rng : Nat → Nat) : Nat → Nat → State → Display → (Nat × State × Display) ⊕ RunOutcome
  | t, 0, s, d => .inl (t, s, d)
  | t, k + 1, s, d =>
    match step s d (rng t) with
    | .cont s' d' => runBatch rng (t + 1) k s' d'
    | .halt s' d' => .inr (.halted s' d')
    | .err s' d' => .inr (.faulted s' d')
    | .panic pk => .inr (.panicked pk)

/-- `Core::run`, with wall-clock sleeping elided: each frame runs
`INSTRUCTIONS_PER_FRAME` steps and then one timer update; `fuel` bounds
the number of frames, `none` meaning the loop is still running. -/
def runFrames (rng : Nat → Nat) : Nat → Nat → State → Display → Option RunOutcome
  | _, 0, _, _ => none
  | t, f + 1, s, d =>
    match runBatch rng t INSTRUCTIONS_PER_FRAME s d with
    | .inr o => some o
    | .inl (t', s', d') => runFrames rng t' f (update_timers s') d'

/-- `Instruction` from `parser.rs`. -/
inductive Instruction
  | ClearScreen
  | ReturnFromSubroutine
  | Jump (address : Nat)
  | Call (address : Nat)
  | SkipIfEqualByte (x b : Nat)
  | SkipIfNotEqualByte (x b : Nat)
  | SkipIfRegistersEqual (x y : Nat)
  | SetRegisterToValue (x b : Nat)
  | AddToRegister (x b : Nat)
  | SetRegisterToRegisterValue (x y : Nat)
  | RegistersBitwiseOr (x y : Nat)
  | RegistersBitwiseAnd (x y : Nat)
  | RegistersBitwiseXor (x y : Nat)
  | RegistersSumWithOverflow (x y : Nat)
  | SubstractRegisterFromRegisterValue (x y : Nat)
  | ShiftRegisterBitsRight (x : Nat)
  | SubstractRegisterValueFromRegister (x y : Nat)
  | ShiftRegisterBitsLeft (x : Nat)
  | SkipIfRegistersNotEqual (x y : Nat)
  | SetIndexRegisterToValue (a : Nat)
  | JumpByValue (a : Nat)
  | SetRegisterToRandAndValue (x b : Nat)
  | DrawSprite (x y n : Nat)
  | SkipIfKeyEqualsRegister (x : Nat)
  | SkipIfKeyNotEqualsRegister (x : Nat)
  | SetRegisterToDelayTimerValue (x : Nat)
  | SetDelayTimerToRegisterValue (x : Nat)
  | SetSoundTimerToRegisterValue (x : Nat)
  | SetIndexRegisterToSpriteForRegister (x : Nat)
  | StoreBinaryCodedDecimalAtIndexRegisterValue (x : Nat)
  | AddRegisterToIndexRegister (x : Nat)
  | DumpRegistersToMemoryAtIndexRegister (x : Nat)
  | LoadMemoryToRegistersAtIndexRegister (x : Nat)
deriving DecidableEq

/-- `Error` from `lib.rs`. -/
inductive Error
  | UnknownOpcode (code : Nat)
  | InsufficientData
deriving DecidableEq

/-- `let n1 = (opcode >> 12) & 0x0F` in `Instruction::from_opcode`. -/
def nibble1 (opcode : Nat) : Nat := (opcode >>> 12) &&& 0xF

/-- `let n2 = (opcode >> 8) & 0x0F` in `Instruction::from_opcode`. -/
def nibble2 (opcode : Nat) : Nat := (opcode >>> 8) &&& 0xF

/-- `let n3 = (opcode >> 4) & 0x0F` in `Instruction::from_opcode`. -/
def nibble3 (opcode : Nat) : Nat := (opcode >>> 4) &&& 0xF

/-- `let n4 = opcode & 0x0F` in `Instruction::from_opcode`. -/
def nibble4 (opcode : Nat) : Nat := opcode &&& 0xF

/-- `Instruction::from_opcode` from `parser.rs`, as the same ordered
sequence of nibble-pattern tests. -/
def from_opcode (opcode : Nat) : Except Error Instruction :=
  if nibble1 opcode = 0 ∧ nibble2 opcode = 0 ∧ nibble3 opcode = 0xE ∧ nibble4 opcode = 0 then
    .ok .ClearScreen
  else if nibble1 opcode = 0 ∧ nibble2 opcode = 0 ∧ nibble3 opcode = 0xE ∧ nibble4 opcode = 0xE then .ok .ReturnFromSubroutine
  else if nibble1 opcode = 1 then .ok (.Jump (opcode &&& 0xFFF))
  else if nibble1 opcode = 2 then .ok (.Call (opcode &&& 0xFFF))
  else if nibble1 opcode = 3 then .ok (.SkipIfEqualByte (nibble2 opcode) (opcode &&& 0xFF))
  else if nibble1 opcode = 4 then .ok (.SkipIfNotEqualByte (nibble2 opcode) (opcode &&& 0xFF))
  else if nibble1 opcode = 5 ∧ nibble4 opcode = 0 then .ok (.SkipIfRegistersEqual (nibble2 opcode) (nibble3 opcode))
  else if nibble1 opcode = 6 then .ok (.SetRegisterToValue (nibble2 opcode) (opcode &&& 0xFF))
  else if nibble1 opcode = 7 then .ok (.AddToRegister (nibble2 opcode) (opcode &&& 0xFF))
  else if nibble1 opcode = 8 ∧ nibble4 opcode = 0 then .ok (.SetRegisterToRegisterValue (nibble2 opcode) (nibble3 opcode))
  else if nibble1 opcode = 8 ∧ nibble4 opcode = 1 then .ok (.RegistersBitwiseOr (nibble2 opcode) (nibble3 opcode))
  else if nibble1 opcode = 8 ∧ nibble4 opcode = 2 then .ok (.RegistersBitwiseAnd (nibble2 opcode) (nibble3 opcode))
  else if nibble1 opcode = 8 ∧ nibble4 opcode = 3 then .ok (.RegistersBitwiseXor (nibble2 opcode) (nibble3 opcode))
  else if nibble1 opcode = 8 ∧ nibble4 opcode = 4 then .ok (.RegistersSumWithOverflow (nibble2 opcode) (nibble3 opcode))
  else if nibble1 opcode = 8 ∧ nibble4 opcode = 5 then .ok (.SubstractRegisterFromRegisterValue (nibble2 opcode) (nibble3 opcode))
  else if nibble1 opcode = 8 ∧ nibble4 opcode = 6 then .ok (.ShiftRegisterBitsRight (nibble2 opcode))
  else if nibble1 opcode = 8 ∧ nibble4 opcode = 7 then .ok (.SubstractRegisterValueFromRegister (nibble2 opcode) (nibble3 opcode))
  else if nibble1 opcode = 8 ∧ nibble4 opcode = 0xE then .ok (.ShiftRegisterBitsLeft (nibble2 opcode))
  else if nibble1 opcode = 9 ∧ nibble4 opcode = 0 then .ok (.SkipIfRegistersNotEqual (nibble2 opcode) (nibble3 opcode))
  else if nibble1 opcode = 0xA then .ok (.SetIndexRegisterToValue (opcode &&& 0xFFF))
  else if nibble1 opcode = 0xB then .ok (.JumpByValue (opcode &&& 0xFFF))
  else if nibble1 opcode = 0xC then .ok (.SetRegisterToRandAndValue (nibble2 opcode) (opcode &&& 0xFF))
  else if nibble1 opcode = 0xD then .ok (.DrawSprite (nibble2 opcode) (nibble3 opcode) (nibble4 opcode))
  else if nibble1 opcode = 0xE ∧ nibble3 opcode = 9 ∧ nibble4 opcode = 0xE then .ok (.SkipIfKeyEqualsRegister (nibble2 opcode))
  else if nibble1 opcode = 0xE ∧ nibble3 opcode = 0xA ∧ nibble4 opcode = 1 then .ok (.SkipIfKeyNotEqualsRegister (nibble2 opcode))
  else if nibble1 opcode = 0xF ∧ nibble3 opcode = 0 ∧ nibble4 opcode = 7 then .ok (.SetRegisterToDelayTimerValue (nibble2 opcode))
  else if nibble1 opcode = 0xF ∧ nibble3 opcode = 1 ∧ nibble4 opcode = 5 then .ok (.SetDelayTimerToRegisterValue (nibble2 opcode))
  else if nibble1 opcode = 0xF ∧ nibble3 opcode = 1 ∧ nibble4 opcode = 8 then .ok (.SetSoundTimerToRegisterValue (nibble2 opcode))
  else if nibble1 opcode = 0xF ∧ nibble3 opcode = 2 ∧ nibble4 opcode = 9 then .ok (.SetIndexRegisterToSpriteForRegister (nibble2 opcode))
  else if nibble1 opcode = 0xF ∧ nibble3 opcode = 3 ∧ nibble4 opcode = 3 then .ok (.StoreBinaryCodedDecimalAtIndexRegisterValue (nibble2 opcode))
  else if nibble1 opcode = 0xF ∧ nibble3 opcode = 1 ∧ nibble4 opcode = 0xE then .ok (.AddRegisterToIndexRegister (nibble2 opcode))
  else if nibble1 opcode = 0xF ∧ nibble3 opcode = 5 ∧ nibble4 opcode = 5 then .ok (.DumpRegistersToMemoryAtIndexRegister (nibble2 opcode))
  else if nibble1 opcode = 0xF ∧ nibble3 opcode = 6 ∧ nibble4 opcode = 5 then .ok (.LoadMemoryToRegistersAtIndexRegister (nibble2 opcode))
  else .error (.UnknownOpcode opcode)

/-- Modelled from the spec: the instruction table of §4.1, one disjunct per
row, with the `8,x,y,0..E` ALU row read through §4.3's enumeration of the
ALU sub-operations (assign, OR, AND, XOR, ADD, SUB, SHR, SUBN, SHL).  This
definition exists only to be compared with `from_opcode`, which is the
embedding of the source decoder. -/
def recognizedPattern (opcode : Nat) : Bool :=
  (nibble1 opcode == 0 && nibble2 opcode == 0 && nibble3 opcode == 0xE && nibble4 opcode == 0) ||
  (nibble1 opcode == 0 && nibble2 opcode == 0 && nibble3 opcode == 0xE && nibble4 opcode == 0xE) ||
  nibble1 opcode == 1 || nibble1 opcode == 2 || nibble1 opcode == 3 || nibble1 opcode == 4 ||
  (nibble1 opcode == 5 && nibble4 opcode == 0) || nibble1 opcode == 6 || nibble1 opcode == 7 ||
  (nibble1 opcode == 8 && (nibble4 opcode == 0 || nibble4 opcode == 1 || nibble4 opcode == 2 || nibble4 opcode == 3 || nibble4 opcode == 4 ||
               nibble4 opcode == 5 || nibble4 opcode == 6 || nibble4 opcode == 7 || nibble4 opcode == 0xE)) ||
  (nibble1 opcode == 9 && nibble4 opcode == 0) || nibble1 opcode == 0xA || nibble1 opcode == 0xB || nibble1 opcode == 0xC || nibble1 opcode == 0xD ||
  (nibble1 opcode == 0xE && nibble3 opcode == 9 && nibble4 opcode == 0xE) || (nibble1 opcode == 0xE && nibble3 opcode == 0xA && nibble4 opcode == 1) ||
  (nibble1 opcode == 0xF && ((nibble3 opcode == 0 && nibble4 opcode == 7) || (nibble3 opcode == 1 && nibble4 opcode == 5) ||
                 (nibble3 opcode == 1 && nibble4 opcode == 8) || (nibble3 opcode == 2 && nibble4 opcode == 9) ||
                 (nibble3 opcode == 3 && nibble4 opcode == 3) || (nibble3 opcode == 1 && nibble4 opcode == 0xE) ||
                 (nibble3 opcode == 5 && nibble4 opcode == 5) || (nibble3 opcode == 6 && nibble4 opcode == 5)))

/-- The machine state a step outcome carries, when it is not a panic. -/
def outState : StepOut → Option State
  | .cont s _ => some s
  | .halt s _ => some s
  | .err s _ => some s
  | .panic _ => none

/-- Whether a step outcome is the `Err(..)` return value. -/
def isErrOut : StepOut → Bool
  | .err _ _ => true
  | _ => false

/-- The value of register `i` after a non-panicking step. -/
def regOf (o : StepOut) (i : Nat) : Option Nat :=
  (outState o).map (fun s => s.registers.getD i 0)

/-- A two-byte program `12 34` at the origin: `jump 0x234` fetched from
address 0x200. -/
def c1s : State := load_rom State.new [0x12, 0x34]

/-- A `8F06` program (`SHR` with `x = 15`) with `VF = 1`. -/
def c2s : State :=
  { load_rom State.new [0x8F, 0x06] with registers := (List.replicate 16 0).set 15 1 }

/-- A `8354` program (`ADD V3, V5`) with `V3 = 200`, `V5 = 100`. -/
def c2ws : State :=
  { load_rom State.new [0x83, 0x54] with
    registers := ((List.replicate 16 0).set 3 200).set 5 100 }

/-- A `00EE` (return) program executed with an empty call stack. -/
def c4s : State := load_rom State.new [0x00, 0xEE]

/-- A `F207` program (`V2 := delay timer`) with the delay timer at 5. -/
def c6s : State := { load_rom State.new [0xF2, 0x07] with delay_timer := 5 }

/-- The two-byte self-jump program `12 00` at the origin. -/
def c7s : State := load_rom State.new [0x12, 0x00]

/-- A `F433` program (BCD of `V4`) with `V4 = 237` and `I = 0x300`. -/
def c8s : State :=
  { load_rom State.new [0xF4, 0x33] with
    registers := (List.replicate 16 0).set 4 237, index_register := 0x300 }

/-- A `F255` then `F265` program (dump then load `V0..V2`) with
`V0, V1, V2 = 10, 20, 30` and `I = 0x300`. -/
def c9s : State :=
  { load_rom State.new [0xF2, 0x55, 0xF2, 0x65] with
    registers := (((List.replicate 16 0).set 0 10).set 1 20).set 2 30,
    index_register := 0x300 }

/-- A `F155` program (dump `V0..V1`) with `I = 4095`: the dump's second
write targets address 4096, one past the end of RAM. -/
def c9ps : State :=
  { load_rom State.new [0xF1, 0x55] with index_register := 4095 }

/-- A `2456` program (`call 0x456`) at the origin. -/
def c10s : State := load_rom State.new [0x24, 0x56]

/-- Shape invariant of the pixel grid: 32 rows of 64 cells, as fixed by the
`[[u8; SCREEN_WIDTH]; SCREEN_HEIGHT]` array type of `CLIDisplay`. -/
def WfScreen (scr : Display) : Prop :=
  scr.length = 32 ∧ ∀ row ∈ scr, row.length = 64

theorem getD_set_self {α} (l : List α) (i : Nat) (a d : α) (h : i < l.length) :
    (l.set i a).getD i d = a := by
  simp [List.getD_eq_getElem?_getD, List.getElem?_set_self, h]

theorem getD_set_ne {α} (l : List α) (i j : Nat) (a d : α) (h : i ≠ j) :
    (l.set i a).getD j d = l.getD j d := by
  simp [List.getD_eq_getElem?_getD, List.getElem?_set_ne h]

theorem step_fetch (s : State) (d : Display) (r : Nat) (hpc : s.pc + 1 < s.ram.length) :
    step s d r =
      execute { s with pc := s.pc + 2 } d r s.pc
        (s.ram.getD s.pc 0 >>> 4) (s.ram.getD s.pc 0 &&& 0xF)
        (s.ram.getD (s.pc + 1) 0 >>> 4) (s.ram.getD (s.pc + 1) 0 &&& 0xF)
        (s.ram.getD (s.pc + 1) 0) := by
  simp [step, hpc]

theorem copy_into_length (dest src : List Nat) (start : Nat)
    (h : start + src.length ≤ dest.length) :
    (copy_into dest start src).length = dest.length := by
  simp only [copy_into, List.length_append, List.length_take, List.length_drop]
  omega

theorem new_ram_length : State.new.ram.length = 4096 := by
  have h : FONT_DATA.length = 80 := by decide
  have hrep : (List.replicate TOTAL_RAM_SIZE (0 : Nat)).length = 4096 := by
    rw [List.length_replicate]
    rfl
  show (copy_into (List.replicate TOTAL_RAM_SIZE 0) 0x50 FONT_DATA).length = 4096
  rw [copy_into_length _ _ _ (by rw [h, hrep]; omega), hrep]

theorem loaded_ram_length (rom : List Nat) (h : rom.length ≤ 3584) :
    (load_rom State.new rom).ram.length = 4096 := by
  show (copy_into State.new.ram INITIAL_PC rom).length = 4096
  have hb : INITIAL_PC + rom.length ≤ State.new.ram.length := by
    rw [new_ram_length]
    show 512 + rom.length ≤ 4096
    omega
  rw [copy_into_length _ _ _ hb, new_ram_length]

/-- Claim C1: the spec says `1NNN` (with target ≠ own address) sets the
program counter to `NNN`.  The code computes the target, checks the
self-jump halt convention, and then falls through without assigning `pc`:
executing `1234` fetched from 0x200 leaves `pc = 0x202` (the fall-through
address) and continues, instead of jumping to `0x234`.  This contradicts
the code's own `// 1NNN - jump to NNN` comment, so it is a defect of the
code, not of the claim. -/
theorem c1_jump_falls_through :
    step c1s newDisplay 0 = .cont { c1s with pc := 0x202 } newDisplay ∧
    (0x202 : Nat) ≠ 0x234 := by
  constructor
  · have hlen : c1s.ram.length = 4096 := loaded_ram_length [0x12, 0x34] (by decide)
    have hpc : c1s.pc = 512 := rfl
    have hlt : c1s.pc + 1 < c1s.ram.length := by rw [hlen, hpc]; omega
    have hb1 : c1s.ram.getD 512 0 = 0x12 := by decide
    have hb2 : c1s.ram.getD 513 0 = 0x34 := by decide
    rw [step_fetch c1s newDisplay 0 hlt, hpc, hb1, hb2]
    have e1 : (0x12 : Nat) >>> 4 = 1 := by decide
    have e2 : (0x12 : Nat) &&& 0xF = 2 := by decide
    have e3 : (0x34 : Nat) >>> 4 = 3 := by decide
    have e4 : (0x34 : Nat) &&& 0xF = 4 := by decide
    have e5 : ((2 : Nat) <<< 8) ||| 0x34 = 0x234 := by decide
    rw [e1, e2, e3, e4]
    simp [execute, e5]
  · decide

/-- Claim C4 (as stated, refuted): executing `00EE` with an empty call stack
does not produce an `Err(..)` result at all — it panics (the `expect("empty
stack")` abort), so no typed fault is surfaced as an error result. -/
theorem c4_counterexample :
    step c4s newDisplay 0 = .panic .emptyStack ∧
    isErrOut (step c4s newDisplay 0) = false := by
  have hlen : c4s.ram.length = 4096 := loaded_ram_length [0x00, 0xEE] (by decide)
  have hpc : c4s.pc = 512 := rfl
  have hlt : c4s.pc + 1 < c4s.ram.length := by rw [hlen, hpc]; omega
  have hb1 : c4s.ram.getD 512 0 = 0x00 := by decide
  have hb2 : c4s.ram.getD 513 0 = 0xEE := by decide
  have hstep : step c4s newDisplay 0 = .panic .emptyStack := by
    rw [step_fetch c4s newDisplay 0 hlt, hpc, hb1, hb2]
    have e1 : (0x00 : Nat) >>> 4 = 0 := by decide
    have e2 : (0x00 : Nat) &&& 0xF = 0 := by decide
    have e3 : (0xEE : Nat) >>> 4 = 0xE := by decide
    have e4 : (0xEE : Nat) &&& 0xF = 0xE := by decide
    rw [e1, e2, e3, e4]
    simp [execute, show c4s.stack = [] from rfl]
  exact ⟨hstep, by rw [hstep]; rfl⟩

/-- Claim C4 (amended): executing a return instruction `00EE` with an empty
call stack aborts via the `expect("empty stack")` panic — an uncatchable
process abort, modelled as the distinguished `panic` outcome — rather than
returning a typed error result. -/
theorem c4_empty_stack_panics (s : State) (d : Display) (r : Nat)
    (hpc : s.pc + 1 < s.ram.length)
    (h1 : s.ram.getD s.pc 0 = 0x00)
    (h2 : s.ram.getD (s.pc + 1) 0 = 0xEE)
    (hstack : s.stack = []) :
    step s d r = .panic .emptyStack := by
  rw [step_fetch s d r hpc, h1, h2]
  have e1 : (0x00 : Nat) >>> 4 = 0 := by decide
  have e2 : (0x00 : Nat) &&& 0xF = 0 := by decide
  have e3 : (0xEE : Nat) >>> 4 = 0xE := by decide
  have e4 : (0xEE : Nat) &&& 0xF = 0xE := by decide
  rw [e1, e2, e3, e4]
  simp [execute, hstack]

/-- Witness for `c4_empty_stack_panics` at a concrete machine state. -/
theorem c4_empty_stack_panics_witness :
    step c4s newDisplay 0 = .panic .emptyStack :=
  c4_empty_stack_panics c4s newDisplay 0
    (by rw [show c4s.pc = 512 from rfl,
            show c4s.ram.length = 4096 from loaded_ram_length [0x00, 0xEE] (by decide)]
        omega)
    (by rw [show c4s.pc = 512 from rfl]; decide)
    (by rw [show c4s.pc = 512 from rfl]; decide)
    rfl

theorem runBatch_halt (rng : Nat → Nat) (t k : Nat) (s s' : State) (d d' : Display)
    (h : step s d (rng t) = .halt s' d') :
    runBatch rng t (k + 1) s d = .inr (.halted s' d') := by
  simp only [runBatch]
  rw [h]

theorem runFrames_halt (rng : Nat → Nat) (t f : Nat) (s s' : State) (d d' : Display)
    (h : step s d (rng t) = .halt s' d') :
    runFrames rng t (f + 1) s d = some (.halted s' d') := by
  have hb : runBatch rng t INSTRUCTIONS_PER_FRAME s d = .inr (.halted s' d') := by
    rw [show INSTRUCTIONS_PER_FRAME = 10 + 1 from rfl]
    exact runBatch_halt rng t 10 s s' d d' h
  simp only [runFrames]
  rw [hb]

/-- Claim C7: loading the two-byte self-jump program `12 00` at the origin
makes the run loop terminate in its first frame in the `halted` terminal
state, the final machine state differing from the loaded one only in the
program counter (which has advanced past the instruction) — no memory,
register, stack, timer, or display mutation — for every random stream and
every frame budget. -/
theorem c7_self_jump_halts (rng : Nat → Nat) (f : Nat) :
    runFrames rng 0 (f + 1) c7s newDisplay =
      some (.halted { c7s with pc := 0x202 } newDisplay) := by
  have hlen : c7s.ram.length = 4096 := loaded_ram_length [0x12, 0x00] (by decide)
  have hpc : c7s.pc = 512 := rfl
  have hlt : c7s.pc + 1 < c7s.ram.length := by rw [hlen, hpc]; omega
  have hb1 : c7s.ram.getD 512 0 = 0x12 := by decide
  have hb2 : c7s.ram.getD 513 0 = 0x00 := by decide
  have hstep : ∀ x : Nat, step c7s newDisplay x = .halt { c7s with pc := 0x202 } newDisplay := by
    intro x
    rw [step_fetch c7s newDisplay x hlt, hpc, hb1, hb2]
    have e1 : (0x12 : Nat) >>> 4 = 1 := by decide
    have e2 : (0x12 : Nat) &&& 0xF = 2 := by decide
    have e3 : (0x00 : Nat) >>> 4 = 0 := by decide
    have e4 : (0x00 : Nat) &&& 0xF = 0 := by decide
    have e5 : ((2 : Nat) <<< 8) ||| 0x00 = 512 := by decide
    rw [e1, e2, e3, e4]
    simp [execute, e5]
  exact runFrames_halt rng 0 f c7s { c7s with pc := 0x202 } newDisplay newDisplay
    (hstep (rng 0))

/-- Claim C10: a subroutine call `2NNN` succeeds from any machine state in
which it can be fetched, for any current call stack whatsoever (any depth):
it pushes the fall-through address onto the stack, jumps to `NNN`, and
returns `Continue` — there is no stack-depth limit or overflow fault. -/
theorem c10_call_unbounded (s : State) (d : Display) (r : Nat)
    (hpc : s.pc + 1 < s.ram.length)
    (h1 : s.ram.getD s.pc 0 >>> 4 = 2) :
    step s d r =
      .cont { s with stack := ((s.pc + 2) :: s.stack),
                     pc := ((s.ram.getD s.pc 0 &&& 0xF) <<< 8) ||| s.ram.getD (s.pc + 1) 0 } d := by
  rw [step_fetch s d r hpc, h1]
  simp [execute]

/-- Witness for `c10_call_unbounded` at a concrete machine state. -/
theorem c10_call_unbounded_witness :
    step c10s newDisplay 0 =
      .cont { c10s with stack := ((c10s.pc + 2) :: c10s.stack),
                        pc := ((c10s.ram.getD c10s.pc 0 &&& 0xF) <<< 8) |||
                              c10s.ram.getD (c10s.pc + 1) 0 } newDisplay :=
  c10_call_unbounded c10s newDisplay 0
    (by rw [show c10s.pc = 512 from rfl,
            show c10s.ram.length = 4096 from loaded_ram_length [0x24, 0x56] (by decide)]; omega)
    (by rw [show c10s.pc = 512 from rfl]; decide)

theorem update_timers_eq (s : State) :
    update_timers s = { s with delay_timer := s.delay_timer - 1,
                               sound_timer := s.sound_timer - 1 } := by
  cases s with
  | mk ram stack pc regs idx dt st =>
    unfold update_timers
    by_cases hd : 0 < dt <;> by_cases hs : 0 < st <;> simp [hd, hs] <;> omega

/-- Claim C6 (as stated, refuted): at a state whose delay timer is 5,
executing `F207` leaves the delay timer at 4 (decremented as a side effect
of the instruction itself, before any frame boundary) and sets `V2` to the
already-decremented value 4, not to the current value 5. -/
theorem c6_counterexample :
    regOf (step c6s newDisplay 0) 2 = some 4 ∧
    (outState (step c6s newDisplay 0)).map State.delay_timer = some 4 ∧
    c6s.delay_timer = 5 := by
  have hlen : c6s.ram.length = 4096 := loaded_ram_length [0xF2, 0x07] (by decide)
  have hpc : c6s.pc = 512 := rfl
  have hlt : c6s.pc + 1 < c6s.ram.length := by rw [hlen, hpc]; omega
  have hb1 : c6s.ram.getD 512 0 = 0xF2 := by decide
  have hb2 : c6s.ram.getD 513 0 = 0x07 := by decide
  have hstep : step c6s newDisplay 0 =
      .cont { c6s with pc := 514,
                       delay_timer := c6s.delay_timer - 1,
                       sound_timer := c6s.sound_timer - 1,
                       registers := c6s.registers.set 2 (c6s.delay_timer - 1) } newDisplay := by
    rw [step_fetch c6s newDisplay 0 hlt, hpc, hb1, hb2]
    have e1 : (0xF2 : Nat) >>> 4 = 0xF := by decide
    have e2 : (0xF2 : Nat) &&& 0xF = 2 := by decide
    have e3 : (0x07 : Nat) >>> 4 = 0 := by decide
    have e4 : (0x07 : Nat) &&& 0xF = 7 := by decide
    rw [e1, e2, e3, e4]
    simp [execute, update_timers_eq]
  rw [hstep]
  refine ⟨?_, ?_, rfl⟩ <;> decide

/-- Claim C6 (amended): executing `FX07` first performs one timer update —
each nonzero timer is decremented by one, flooring at zero — and then sets
`Vx` to the *updated* delay-timer value; besides this and the program
counter advance, no other state changes. -/
theorem c6_fx07_amended (s : State) (d : Display) (r x : Nat)
    (hpc : s.pc + 1 < s.ram.length)
    (h1a : s.ram.getD s.pc 0 >>> 4 = 0xF)
    (h1b : s.ram.getD s.pc 0 &&& 0xF = x)
    (h2a : s.ram.getD (s.pc + 1) 0 >>> 4 = 0)
    (h2b : s.ram.getD (s.pc + 1) 0 &&& 0xF = 7) :
    step s d r =
      .cont { s with pc := s.pc + 2,
                     delay_timer := s.delay_timer - 1,
                     sound_timer := s.sound_timer - 1,
                     registers := s.registers.set x (s.delay_timer - 1) } d := by
  rw [step_fetch s d r hpc, h1a, h1b, h2a, h2b]
  simp [execute, update_timers_eq]

/-- Witness for `c6_fx07_amended` at a concrete machine state. -/
theorem c6_fx07_amended_witness :
    step c6s newDisplay 0 =
      .cont { c6s with pc := c6s.pc + 2,
                       delay_timer := c6s.delay_timer - 1,
                       sound_timer := c6s.sound_timer - 1,
                       registers := c6s.registers.set 2 (c6s.delay_timer - 1) } newDisplay :=
  c6_fx07_amended c6s newDisplay 0 2
    (by rw [show c6s.pc = 512 from rfl,
            show c6s.ram.length = 4096 from loaded_ram_length [0xF2, 0x07] (by decide)]
        omega)
    (by rw [show c6s.pc = 512 from rfl]; decide)
    (by rw [show c6s.pc = 512 from rfl]; decide)
    (by rw [show c6s.pc = 512 from rfl]; decide)
    (by rw [show c6s.pc = 512 from rfl]; decide)

theorem bcd_digits : ∀ v, v < 256 → v / 100 < 10 ∧ v / 10 % 10 < 10 ∧ v % 10 < 10 ∧
    v / 100 * 100 + v / 10 % 10 * 10 + v % 10 = v := by decide

/-- Claim C8: executing `FX33` on a byte value `v = Vx` writes the three
decimal digits of `v` (each below 10) to `I`, `I+1`, `I+2`, recombining to
`v`, and leaves the index register (and everything except `pc` and those
three memory cells) unchanged. -/
theorem c8_bcd (s : State) (d : Display) (r x : Nat)
    (hpc : s.pc + 1 < s.ram.length)
    (h1a : s.ram.getD s.pc 0 >>> 4 = 0xF)
    (h1b : s.ram.getD s.pc 0 &&& 0xF = x)
    (h2a : s.ram.getD (s.pc + 1) 0 >>> 4 = 3)
    (h2b : s.ram.getD (s.pc + 1) 0 &&& 0xF = 3)
    (hi : s.index_register + 2 < s.ram.length)
    (hv : s.registers.getD x 0 < 256) :
    step s d r =
      .cont { s with pc := s.pc + 2,
                     ram := bcd_write s.ram s.index_register (s.registers.getD x 0) } d ∧
    (bcd_write s.ram s.index_register (s.registers.getD x 0)).getD s.index_register 0
      = s.registers.getD x 0 / 100 ∧
    (bcd_write s.ram s.index_register (s.registers.getD x 0)).getD (s.index_register + 1) 0
      = s.registers.getD x 0 / 10 % 10 ∧
    (bcd_write s.ram s.index_register (s.registers.getD x 0)).getD (s.index_register + 2) 0
      = s.registers.getD x 0 % 10 ∧
    s.registers.getD x 0 / 100 < 10 ∧
    s.registers.getD x 0 / 10 % 10 < 10 ∧
    s.registers.getD x 0 % 10 < 10 ∧
    s.registers.getD x 0 / 100 * 100 + s.registers.getD x 0 / 10 % 10 * 10
      + s.registers.getD x 0 % 10 = s.registers.getD x 0 := by
  have hd := bcd_digits (s.registers.getD x 0) hv
  refine ⟨?_, ?_, ?_, ?_, hd.1, hd.2.1, hd.2.2.1, hd.2.2.2⟩
  · rw [step_fetch s d r hpc, h1a, h1b, h2a, h2b]
    simp [execute, hi]
  · rw [bcd_write, getD_set_ne _ _ _ _ _ (by omega), getD_set_ne _ _ _ _ _ (by omega),
        getD_set_self _ _ _ _ (by omega)]
  · rw [bcd_write, getD_set_ne _ _ _ _ _ (by omega),
        getD_set_self _ _ _ _ (by simp [List.length_set]; omega)]
  · rw [bcd_write, getD_set_self _ _ _ _ (by simp [List.length_set]; omega)]

/-- Witness for `c8_bcd` at a concrete machine state. -/
theorem c8_bcd_witness :
    step c8s newDisplay 0 =
      .cont { c8s with pc := c8s.pc + 2,
                       ram := bcd_write c8s.ram c8s.index_register (c8s.registers.getD 4 0) }
        newDisplay :=
  (c8_bcd c8s newDisplay 0 4
    (by rw [show c8s.pc = 512 from rfl,
            show c8s.ram.length = 4096 from loaded_ram_length [0xF4, 0x33] (by decide)]
        omega)
    (by rw [show c8s.pc = 512 from rfl]; decide)
    (by rw [show c8s.pc = 512 from rfl]; decide)
    (by rw [show c8s.pc = 512 from rfl]; decide)
    (by rw [show c8s.pc = 512 from rfl]; decide)
    (by rw [show c8s.index_register = 0x300 from rfl,
            show c8s.ram.length = 4096 from loaded_ram_length [0xF4, 0x33] (by decide)]
        omega)
    (by decide)).1


theorem dump_loop_length (ram regs : List Nat) (i : Nat) :
    ∀ x, (dump_loop ram regs i x).length = ram.length := by
  intro x
  induction x with
  | zero => simp [dump_loop]
  | succ k ih => simp [dump_loop, ih]

theorem dump_loop_getD_le (ram regs : List Nat) (i : Nat) :
    ∀ x j, j ≤ x → i + x < ram.length →
      (dump_loop ram regs i x).getD (i + j) 0 = regs.getD j 0 := by
  intro x
  induction x with
  | zero =>
    intro j hj hx
    have hj0 : j = 0 := by omega
    subst hj0
    rw [dump_loop]
    exact getD_set_self _ _ _ _ (by omega)
  | succ k ih =>
    intro j hj hx
    rw [dump_loop]
    by_cases hjk : j = k + 1
    · subst hjk
      exact getD_set_self _ _ _ _ (by rw [dump_loop_length]; omega)
    · rw [getD_set_ne _ _ _ _ _ (by omega)]
      exact ih j (by omega) (by omega)

theorem load_loop_length (ram regs : List Nat) (i : Nat) :
    ∀ x, (load_loop ram regs i x).length = regs.length := by
  intro x
  induction x with
  | zero => simp [load_loop]
  | succ k ih => simp [load_loop, ih]

theorem load_loop_getD_le (ram regs : List Nat) (i : Nat) :
    ∀ x j, j ≤ x → x < regs.length →
      (load_loop ram regs i x).getD j 0 = ram.getD (i + j) 0 := by
  intro x
  induction x with
  | zero =>
    intro j hj hx
    have hj0 : j = 0 := by omega
    subst hj0
    rw [load_loop]
    exact getD_set_self _ _ _ _ (by omega)
  | succ k ih =>
    intro j hj hx
    rw [load_loop]
    by_cases hjk : j = k + 1
    · subst hjk
      exact getD_set_self _ _ _ _ (by rw [load_loop_length]; omega)
    · rw [getD_set_ne _ _ _ _ _ (by omega)]
      exact ih j (by omega) (by omega)

/-- Claim C9 (as stated, refuted): the round trip does not hold "for any
index register value i": with `I = 4095` and `x = 1`, the very first dump
instruction `F155` indexes `ram[4096]` on the 4096-byte RAM and panics —
the run aborts with an out-of-bounds index and no state (hence no restored
registers) results at all. -/
theorem c9_counterexample :
    step c9ps newDisplay 0 = .panic .outOfBounds ∧
    outState (step c9ps newDisplay 0) = none := by
  have hlen : c9ps.ram.length = 4096 := loaded_ram_length [0xF1, 0x55] (by decide)
  have hpc : c9ps.pc = 512 := rfl
  have hlt : c9ps.pc + 1 < c9ps.ram.length := by rw [hlen, hpc]; omega
  have hb1 : c9ps.ram.getD 512 0 = 0xF1 := by decide
  have hb2 : c9ps.ram.getD 513 0 = 0x55 := by decide
  have hstep : step c9ps newDisplay 0 = .panic .outOfBounds := by
    rw [step_fetch c9ps newDisplay 0 hlt, hpc, hb1, hb2]
    have e1 : (0xF1 : Nat) >>> 4 = 0xF := by decide
    have e2 : (0xF1 : Nat) &&& 0xF = 1 := by decide
    have e3 : (0x55 : Nat) >>> 4 = 5 := by decide
    have e4 : (0x55 : Nat) &&& 0xF = 5 := by decide
    rw [e1, e2, e3, e4]
    simp [execute, hlen, show c9ps.index_register = 4095 from rfl]
  exact ⟨hstep, by rw [hstep]; rfl⟩

/-- Claim C9 (amended): for any index register value `i` with all touched
addresses `i..=i+x` inside the 4096-byte RAM (`i + x < 4096`; for larger
`i` the dump itself panics with an out-of-bounds index and nothing is
restored, see `c9_counterexample`): dumping `V0..Vx` to memory at `I`
(`FX55`), then clearing the registers, then loading from memory at `I`
(`FX65`) restores `V0..Vx` exactly; the dump writes `V0..Vx` inclusively
to `ram[I..=I+x]`, the load reads them back inclusively, and neither
step's result changes the index register (both result records keep
`s.index_register`). -/
theorem c9_dump_load_roundtrip (s : State) (d : Display) (r x q : Nat)
    (hx : x < 16)
    (hpc : s.pc + 1 < s.ram.length)
    (h1a : s.ram.getD s.pc 0 >>> 4 = 0xF)
    (h1b : s.ram.getD s.pc 0 &&& 0xF = x)
    (h2a : s.ram.getD (s.pc + 1) 0 >>> 4 = 5)
    (h2b : s.ram.getD (s.pc + 1) 0 &&& 0xF = 5)
    (hi : s.index_register + x < s.ram.length)
    (hq : q + 1 < s.ram.length)
    (h3a : (dump_loop s.ram s.registers s.index_register x).getD q 0 >>> 4 = 0xF)
    (h3b : (dump_loop s.ram s.registers s.index_register x).getD q 0 &&& 0xF = x)
    (h4a : (dump_loop s.ram s.registers s.index_register x).getD (q + 1) 0 >>> 4 = 6)
    (h4b : (dump_loop s.ram s.registers s.index_register x).getD (q + 1) 0 &&& 0xF = 5) :
    step s d r = .cont { s with pc := s.pc + 2,
                                ram := dump_loop s.ram s.registers s.index_register x } d ∧
    (∀ j, j ≤ x →
      (dump_loop s.ram s.registers s.index_register x).getD (s.index_register + j) 0
        = s.registers.getD j 0) ∧
    step { s with pc := q, ram := dump_loop s.ram s.registers s.index_register x,
                  registers := List.replicate 16 0 } d r =
      .cont { s with pc := q + 2,
                     ram := dump_loop s.ram s.registers s.index_register x,
                     registers := load_loop (dump_loop s.ram s.registers s.index_register x)
                       (List.replicate 16 0) s.index_register x } d ∧
    (∀ j, j ≤ x →
      (load_loop (dump_loop s.ram s.registers s.index_register x)
        (List.replicate 16 0) s.index_register x).getD j 0 = s.registers.getD j 0) := by
  have hdlen : (dump_loop s.ram s.registers s.index_register x).length = s.ram.length :=
    dump_loop_length s.ram s.registers s.index_register x
  refine ⟨?_, ?_, ?_, ?_⟩
  · rw [step_fetch s d r hpc, h1a, h1b, h2a, h2b]
    simp [execute, hi]
  · intro j hj
    exact dump_loop_getD_le s.ram s.registers s.index_register x j hj hi
  · rw [step_fetch { s with pc := q,
                            ram := dump_loop s.ram s.registers s.index_register x,
                            registers := List.replicate 16 0 } d r
          (by simpa [hdlen] using hq)]
    simp only [h3a, h3b, h4a, h4b]
    simp [execute, hdlen, hi]
  · intro j hj
    rw [load_loop_getD_le _ _ _ x j hj (by simp; omega)]
    exact dump_loop_getD_le s.ram s.registers s.index_register x j hj hi

/-- Witness for `c9_dump_load_roundtrip` at a concrete machine state:
`V1 = 20` survives the dump-clear-load round trip. -/
theorem c9_dump_load_roundtrip_witness :
    (load_loop (dump_loop c9s.ram c9s.registers c9s.index_register 2)
      (List.replicate 16 0) c9s.index_register 2).getD 1 0 = c9s.registers.getD 1 0 :=
  (c9_dump_load_roundtrip c9s newDisplay 0 2 514
    (by decide)
    (by rw [show c9s.pc = 512 from rfl,
            show c9s.ram.length = 4096 from loaded_ram_length [0xF2, 0x55, 0xF2, 0x65] (by decide)]
        omega)
    (by rw [show c9s.pc = 512 from rfl]; decide)
    (by rw [show c9s.pc = 512 from rfl]; decide)
    (by rw [show c9s.pc = 512 from rfl]; decide)
    (by rw [show c9s.pc = 512 from rfl]; decide)
    (by rw [show c9s.index_register = 0x300 from rfl,
            show c9s.ram.length = 4096 from loaded_ram_length [0xF2, 0x55, 0xF2, 0x65] (by decide)]
        omega)
    (by rw [show c9s.ram.length = 4096 from loaded_ram_length [0xF2, 0x55, 0xF2, 0x65] (by decide)]
        omega)
    (by decide) (by decide) (by decide) (by decide)).2.2.2 1 (by decide)


/-- Claim C2 (as stated, refuted): for `x = 15`, `SHR` does not set `VF` to
the bit shifted out of `Vx`: at a state with `VF = 1` (shifted-out bit 1),
executing `8F06` leaves `VF = 0`, because the flag is written before the
shift and the shift then clobbers it. -/
theorem c2_counterexample :
    regOf (step c2s newDisplay 0) 15 = some 0 ∧
    c2s.registers.getD 15 0 &&& 1 = 1 := by
  have hlen : c2s.ram.length = 4096 := loaded_ram_length [0x8F, 0x06] (by decide)
  have hpc : c2s.pc = 512 := rfl
  have hlt : c2s.pc + 1 < c2s.ram.length := by rw [hlen, hpc]; omega
  have hb1 : c2s.ram.getD 512 0 = 0x8F := by decide
  have hb2 : c2s.ram.getD 513 0 = 0x06 := by decide
  constructor
  · rw [regOf, step_fetch c2s newDisplay 0 hlt, hpc, hb1, hb2]
    have e1 : (0x8F : Nat) >>> 4 = 8 := by decide
    have e2 : (0x8F : Nat) &&& 0xF = 0xF := by decide
    have e3 : (0x06 : Nat) >>> 4 = 0 := by decide
    have e4 : (0x06 : Nat) &&& 0xF = 6 := by decide
    rw [e1, e2, e3, e4]
    simp [execute, outState]
    decide
  · decide

theorem length_set_eq {α} (l : List α) (i : Nat) (a : α) :
    (l.set i a).length = l.length := by
  simp

theorem getE_set_self {α} (l : List α) (i : Nat) (a d : α) (h : i < l.length) :
    (l.set i a)[i]?.getD d = a := by
  simp [List.getElem?_set_self, h]

theorem getE_set_ne {α} (l : List α) (i j : Nat) (a d : α) (h : i ≠ j) :
    (l.set i a)[j]?.getD d = l[j]?.getD d := by
  simp [List.getElem?_set_ne h]

/-- Claim C2 (amended): with 8-bit register values `a = Vx`, `b = Vy`:
ADD (`8xy4`) sets `VF = 1` iff `a + b > 255`, SUB (`8xy5`) sets `VF = 1`
iff `a ≥ b`, and SUBN (`8xy7`) sets `VF = 1` iff `b ≥ a`, for **every**
`x`, `y` in `0..15` including `x = 15` (these write `Vx` first and the
flag last).  SHR (`8xy6`) and SHL (`8xyE`) write the flag **first** and
the shifted value last, so `VF` equals the shifted-out bit only for
`x ≠ 15`; for `x = 15` the shift clobbers the flag: SHR leaves `VF = 0`
and SHL leaves `VF = 2 · (old VF >> 7)`. -/
theorem c2_flags_amended (s : State) (d : Display) (r x y : Nat)
    (hx : x < 16) (hy : y < 16)
    (hreg : s.registers.length = 16)
    (hvx : s.registers.getD x 0 < 256)
    (hvy : s.registers.getD y 0 < 256)
    (hpc : s.pc + 1 < s.ram.length)
    (h1a : s.ram.getD s.pc 0 >>> 4 = 8)
    (h1b : s.ram.getD s.pc 0 &&& 0xF = x)
    (h2a : s.ram.getD (s.pc + 1) 0 >>> 4 = y) :
    (s.ram.getD (s.pc + 1) 0 &&& 0xF = 4 →
      regOf (step s d r) 15
        = some (if 255 < s.registers.getD x 0 + s.registers.getD y 0 then 1 else 0)) ∧
    (s.ram.getD (s.pc + 1) 0 &&& 0xF = 5 →
      regOf (step s d r) 15
        = some (if s.registers.getD y 0 ≤ s.registers.getD x 0 then 1 else 0)) ∧
    (s.ram.getD (s.pc + 1) 0 &&& 0xF = 7 →
      regOf (step s d r) 15
        = some (if s.registers.getD x 0 ≤ s.registers.getD y 0 then 1 else 0)) ∧
    (s.ram.getD (s.pc + 1) 0 &&& 0xF = 6 → x ≠ 15 →
      regOf (step s d r) 15 = some (s.registers.getD x 0 &&& 1) ∧
      regOf (step s d r) x = some (s.registers.getD x 0 >>> 1)) ∧
    (s.ram.getD (s.pc + 1) 0 &&& 0xF = 0xE → x ≠ 15 →
      regOf (step s d r) 15 = some (s.registers.getD x 0 >>> 7) ∧
      regOf (step s d r) x = some ((s.registers.getD x 0 <<< 1) % 256)) ∧
    (s.ram.getD (s.pc + 1) 0 &&& 0xF = 6 → x = 15 →
      regOf (step s d r) 15 = some 0) ∧
    (s.ram.getD (s.pc + 1) 0 &&& 0xF = 0xE → x = 15 →
      regOf (step s d r) 15 = some (2 * (s.registers.getD 15 0 >>> 7))) := by
  have hl1 : ∀ (i : Nat) (v : Nat), (s.registers.set i v).length = 16 := by
    intro i v
    rw [length_set_eq, hreg]
  refine ⟨?_, ?_, ?_, ?_, ?_, ?_, ?_⟩
  · intro h2b
    rw [regOf, step_fetch s d r hpc, h1a, h1b, h2a, h2b]
    simp only [execute]
    simp [outState]
    rw [getE_set_self _ _ _ _ (by rw [hl1]; omega)]
  · intro h2b
    rw [regOf, step_fetch s d r hpc, h1a, h1b, h2a, h2b]
    simp only [execute]
    simp [outState]
    rw [getE_set_self _ _ _ _ (by rw [hl1]; omega)]
    split_ifs <;> omega
  · intro h2b
    rw [regOf, step_fetch s d r hpc, h1a, h1b, h2a, h2b]
    simp only [execute]
    simp [outState]
    rw [getE_set_self _ _ _ _ (by rw [hl1]; omega)]
    split_ifs <;> omega
  · intro h2b hx15
    rw [regOf, regOf, step_fetch s d r hpc, h1a, h1b, h2a, h2b]
    simp only [execute]
    simp [outState]
    constructor
    · rw [getE_set_ne _ _ _ _ _ (by omega),
          getE_set_self _ _ _ _ (by rw [hreg]; omega)]
    · rw [getE_set_self _ _ _ _ (by rw [hl1]; omega),
          getE_set_ne _ _ _ _ _ (by omega)]
  · intro h2b hx15
    rw [regOf, regOf, step_fetch s d r hpc, h1a, h1b, h2a, h2b]
    simp only [execute]
    simp [outState]
    constructor
    · rw [getE_set_ne _ _ _ _ _ (by omega),
          getE_set_self _ _ _ _ (by rw [hreg]; omega)]
    · rw [getE_set_self _ _ _ _ (by rw [hl1]; omega),
          getE_set_ne _ _ _ _ _ (by omega)]
  · intro h2b hx15
    subst hx15
    rw [regOf, step_fetch s d r hpc, h1a, h1b, h2a, h2b]
    simp only [execute]
    simp [outState]
    rw [getE_set_self _ _ _ _ (by rw [hreg]; omega)]
    rw [getE_set_self _ _ _ _ (by rw [hreg]; omega)]
    rw [Nat.shiftRight_eq_div_pow]
    rw [show (2 : Nat) ^ 1 = 2 from rfl]
    omega
  · intro h2b hx15
    subst hx15
    rw [regOf, step_fetch s d r hpc, h1a, h1b, h2a, h2b]
    simp only [execute]
    simp [outState]
    rw [getE_set_self _ _ _ _ (by rw [hreg]; omega)]
    rw [getE_set_self _ _ _ _ (by rw [hreg]; omega)]
    rw [Nat.shiftLeft_eq]
    rw [show (2 : Nat) ^ 1 = 2 from rfl]
    rw [Nat.shiftRight_eq_div_pow]
    rw [show (2 : Nat) ^ 7 = 128 from rfl]
    have hvx15 : s.registers[15]?.getD 0 < 256 := by
      rw [← List.getD_eq_getElem?_getD]
      exact hvx
    omega

/-- Witness for `c2_flags_amended` at a concrete machine state: the ADD
conjunct with `V3 = 200`, `V5 = 100` (sum 300 > 255, so `VF = 1`). -/
theorem c2_flags_amended_witness :
    regOf (step c2ws newDisplay 0) 15
      = some (if 255 < c2ws.registers.getD 3 0 + c2ws.registers.getD 5 0 then 1 else 0) :=
  (c2_flags_amended c2ws newDisplay 0 3 5 (by decide) (by decide) (by decide) (by decide)
    (by decide)
    (by rw [show c2ws.pc = 512 from rfl,
            show c2ws.ram.length = 4096 from loaded_ram_length [0x83, 0x54] (by decide)]
        omega)
    (by rw [show c2ws.pc = 512 from rfl]; decide)
    (by rw [show c2ws.pc = 512 from rfl]; decide)
    (by rw [show c2ws.pc = 512 from rfl]; decide)).1
    (by rw [show c2ws.pc = 512 from rfl]; decide)

/-- Claim C5: decoding is total modulo the unrecognized-opcode error: every
opcode whose nibble pattern is in the instruction table decodes successfully,
and every other opcode fails with `UnknownOpcode` carrying exactly the raw
opcode value.  Decoding is a pure function of the opcode (it takes and
mutates no machine state). -/
theorem c5_decode_total (op : Nat) (hop : op < 65536) :
    (recognizedPattern op = true → (from_opcode op).isOk = true) ∧
    (recognizedPattern op = false → from_opcode op = .error (.UnknownOpcode op)) := by
  by_cases h1 : nibble1 op = 0 ∧ nibble2 op = 0 ∧ nibble3 op = 0xE ∧ nibble4 op = 0
  · refine ⟨fun hrt => ?_, fun hrf => ?_⟩
    · unfold from_opcode
      rw [if_pos h1]
      rfl
    · exfalso
      unfold recognizedPattern at hrf
      simp only [Bool.or_eq_false_iff, Bool.and_eq_false_iff, beq_eq_false_iff_ne,
        ne_eq] at hrf
      rcases hrf.1.1.1.1.1.1.1.1.1.1.1.1.1.1.1.1.1 with (((hq) | hq) | hq) | hq
      · exact hq h1.1
      · exact hq h1.2.1
      · exact hq h1.2.2.1
      · exact hq h1.2.2.2
  by_cases h2 : nibble1 op = 0 ∧ nibble2 op = 0 ∧ nibble3 op = 0xE ∧ nibble4 op = 0xE
  · refine ⟨fun hrt => ?_, fun hrf => ?_⟩
    · unfold from_opcode
      rw [if_neg h1, if_pos h2]
      rfl
    · exfalso
      unfold recognizedPattern at hrf
      simp only [Bool.or_eq_false_iff, Bool.and_eq_false_iff, beq_eq_false_iff_ne,
        ne_eq] at hrf
      rcases hrf.1.1.1.1.1.1.1.1.1.1.1.1.1.1.1.1.2 with (((hq) | hq) | hq) | hq
      · exact hq h2.1
      · exact hq h2.2.1
      · exact hq h2.2.2.1
      · exact hq h2.2.2.2
  by_cases h3 : nibble1 op = 1
  · refine ⟨fun hrt => ?_, fun hrf => ?_⟩
    · unfold from_opcode
      rw [if_neg h1, if_neg h2, if_pos h3]
      rfl
    · exfalso
      unfold recognizedPattern at hrf
      simp only [Bool.or_eq_false_iff, Bool.and_eq_false_iff, beq_eq_false_iff_ne,
        ne_eq] at hrf
      exact hrf.1.1.1.1.1.1.1.1.1.1.1.1.1.1.1.2 h3
  by_cases h4 : nibble1 op = 2
  · refine ⟨fun hrt => ?_, fun hrf => ?_⟩
    · unfold from_opcode
      rw [if_neg h1, if_neg h2, if_neg h3, if_pos h4]
      rfl
    · exfalso
      unfold recognizedPattern at hrf
      simp only [Bool.or_eq_false_iff, Bool.and_eq_false_iff, beq_eq_false_iff_ne,
        ne_eq] at hrf
      exact hrf.1.1.1.1.1.1.1.1.1.1.1.1.1.1.2 h4
  by_cases h5 : nibble1 op = 3
  · refine ⟨fun hrt => ?_, fun hrf => ?_⟩
    · unfold from_opcode
      rw [if_neg h1, if_neg h2, if_neg h3, if_neg h4, if_pos h5]
      rfl
    · exfalso
      unfold recognizedPattern at hrf
      simp only [Bool.or_eq_false_iff, Bool.and_eq_false_iff, beq_eq_false_iff_ne,
        ne_eq] at hrf
      exact hrf.1.1.1.1.1.1.1.1.1.1.1.1.1.2 h5
  by_cases h6 : nibble1 op = 4
  · refine ⟨fun hrt => ?_, fun hrf => ?_⟩
    · unfold from_opcode
      rw [if_neg h1, if_neg h2, if_neg h3, if_neg h4, if_neg h5, if_pos h6]
      rfl
    · exfalso
      unfold recognizedPattern at hrf
      simp only [Bool.or_eq_false_iff, Bool.and_eq_false_iff, beq_eq_false_iff_ne,
        ne_eq] at hrf
      exact hrf.1.1.1.1.1.1.1.1.1.1.1.1.2 h6
  by_cases h7 : nibble1 op = 5 ∧ nibble4 op = 0
  · refine ⟨fun hrt => ?_, fun hrf => ?_⟩
    · unfold from_opcode
      rw [if_neg h1, if_neg h2, if_neg h3, if_neg h4, if_neg h5, if_neg h6, if_pos h7]
      rfl
    · exfalso
      unfold recognizedPattern at hrf
      simp only [Bool.or_eq_false_iff, Bool.and_eq_false_iff, beq_eq_false_iff_ne,
        ne_eq] at hrf
      rcases hrf.1.1.1.1.1.1.1.1.1.1.1.2 with hq | hq
      · exact hq h7.1
      · exact hq h7.2
  by_cases h8 : nibble1 op = 6
  · refine ⟨fun hrt => ?_, fun hrf => ?_⟩
    · unfold from_opcode
      rw [if_neg h1, if_neg h2, if_neg h3, if_neg h4, if_neg h5, if_neg h6, if_neg h7, if_pos h8]
      rfl
    · exfalso
      unfold recognizedPattern at hrf
      simp only [Bool.or_eq_false_iff, Bool.and_eq_false_iff, beq_eq_false_iff_ne,
        ne_eq] at hrf
      exact hrf.1.1.1.1.1.1.1.1.1.1.2 h8
  by_cases h9 : nibble1 op = 7
  · refine ⟨fun hrt => ?_, fun hrf => ?_⟩
    · unfold from_opcode
      rw [if_neg h1, if_neg h2, if_neg h3, if_neg h4, if_neg h5, if_neg h6, if_neg h7, if_neg h8, if_pos h9]
      rfl
    · exfalso
      unfold recognizedPattern at hrf
      simp only [Bool.or_eq_false_iff, Bool.and_eq_false_iff, beq_eq_false_iff_ne,
        ne_eq] at hrf
      exact hrf.1.1.1.1.1.1.1.1.1.2 h9
  by_cases h10 : nibble1 op = 8 ∧ nibble4 op = 0
  · refine ⟨fun hrt => ?_, fun hrf => ?_⟩
    · unfold from_opcode
      rw [if_neg h1, if_neg h2, if_neg h3, if_neg h4, if_neg h5, if_neg h6, if_neg h7, if_neg h8, if_neg h9, if_pos h10]
      rfl
    · exfalso
      unfold recognizedPattern at hrf
      simp only [Bool.or_eq_false_iff, Bool.and_eq_false_iff, beq_eq_false_iff_ne,
        ne_eq] at hrf
      rcases hrf.1.1.1.1.1.1.1.1.2 with hq | hq
      · exact hq h10.1
      · exact hq.1.1.1.1.1.1.1.1 h10.2
  by_cases h11 : nibble1 op = 8 ∧ nibble4 op = 1
  · refine ⟨fun hrt => ?_, fun hrf => ?_⟩
    · unfold from_opcode
      rw [if_neg h1, if_neg h2, if_neg h3, if_neg h4, if_neg h5, if_neg h6, if_neg h7, if_neg h8, if_neg h9, if_neg h10, if_pos h11]
      rfl
    · exfalso
      unfold recognizedPattern at hrf
      simp only [Bool.or_eq_false_iff, Bool.and_eq_false_iff, beq_eq_false_iff_ne,
        ne_eq] at hrf
      rcases hrf.1.1.1.1.1.1.1.1.2 with hq | hq
      · exact hq h11.1
      · exact hq.1.1.1.1.1.1.1.2 h11.2
  by_cases h12 : nibble1 op = 8 ∧ nibble4 op = 2
  · refine ⟨fun hrt => ?_, fun hrf => ?_⟩
    · unfold from_opcode
      rw [if_neg h1, if_neg h2, if_neg h3, if_neg h4, if_neg h5, if_neg h6, if_neg h7, if_neg h8, if_neg h9, if_neg h10, if_neg h11, if_pos h12]
      rfl
    · exfalso
      unfold recognizedPattern at hrf
      simp only [Bool.or_eq_false_iff, Bool.and_eq_false_iff, beq_eq_false_iff_ne,
        ne_eq] at hrf
      rcases hrf.1.1.1.1.1.1.1.1.2 with hq | hq
      · exact hq h12.1
      · exact hq.1.1.1.1.1.1.2 h12.2
  by_cases h13 : nibble1 op = 8 ∧ nibble4 op = 3
  · refine ⟨fun hrt => ?_, fun hrf => ?_⟩
    · unfold from_opcode
      rw [if_neg h1, if_neg h2, if_neg h3, if_neg h4, if_neg h5, if_neg h6, if_neg h7, if_neg h8, if_neg h9, if_neg h10, if_neg h11, if_neg h12, if_pos h13]
      rfl
    · exfalso
      unfold recognizedPattern at hrf
      simp only [Bool.or_eq_false_iff, Bool.and_eq_false_iff, beq_eq_false_iff_ne,
        ne_eq] at hrf
      rcases hrf.1.1.1.1.1.1.1.1.2 with hq | hq
      · exact hq h13.1
      · exact hq.1.1.1.1.1.2 h13.2
  by_cases h14 : nibble1 op = 8 ∧ nibble4 op = 4
  · refine ⟨fun hrt => ?_, fun hrf => ?_⟩
    · unfold from_opcode
      rw [if_neg h1, if_neg h2, if_neg h3, if_neg h4, if_neg h5, if_neg h6, if_neg h7, if_neg h8, if_neg h9, if_neg h10, if_neg h11, if_neg h12, if_neg h13, if_pos h14]
      rfl
    · exfalso
      unfold recognizedPattern at hrf
      simp only [Bool.or_eq_false_iff, Bool.and_eq_false_iff, beq_eq_false_iff_ne,
        ne_eq] at hrf
      rcases hrf.1.1.1.1.1.1.1.1.2 with hq | hq
      · exact hq h14.1
      · exact hq.1.1.1.1.2 h14.2
  by_cases h15 : nibble1 op = 8 ∧ nibble4 op = 5
  · refine ⟨fun hrt => ?_, fun hrf => ?_⟩
    · unfold from_opcode
      rw [if_neg h1, if_neg h2, if_neg h3, if_neg h4, if_neg h5, if_neg h6, if_neg h7, if_neg h8, if_neg h9, if_neg h10, if_neg h11, if_neg h12, if_neg h13, if_neg h14, if_pos h15]
      rfl
    · exfalso
      unfold recognizedPattern at hrf
      simp only [Bool.or_eq_false_iff, Bool.and_eq_false_iff, beq_eq_false_iff_ne,
        ne_eq] at hrf
      rcases hrf.1.1.1.1.1.1.1.1.2 with hq | hq
      · exact hq h15.1
      · exact hq.1.1.1.2 h15.2
  by_cases h16 : nibble1 op = 8 ∧ nibble4 op = 6
  · refine ⟨fun hrt => ?_, fun hrf => ?_⟩
    · unfold from_opcode
      rw [if_neg h1, if_neg h2, if_neg h3, if_neg h4, if_neg h5, if_neg h6, if_neg h7, if_neg h8, if_neg h9, if_neg h10, if_neg h11, if_neg h12, if_neg h13, if_neg h14, if_neg h15, if_pos h16]
      rfl
    · exfalso
      unfold recognizedPattern at hrf
      simp only [Bool.or_eq_false_iff, Bool.and_eq_false_iff, beq_eq_false_iff_ne,
        ne_eq] at hrf
      rcases hrf.1.1.1.1.1.1.1.1.2 with hq | hq
      · exact hq h16.1
      · exact hq.1.1.2 h16.2
  by_cases h17 : nibble1 op = 8 ∧ nibble4 op = 7
  · refine ⟨fun hrt => ?_, fun hrf => ?_⟩
    · unfold from_opcode
      rw [if_neg h1, if_neg h2, if_neg h3, if_neg h4, if_neg h5, if_neg h6, if_neg h7, if_neg h8, if_neg h9, if_neg h10, if_neg h11, if_neg h12, if_neg h13, if_neg h14, if_neg h15, if_neg h16, if_pos h17]
      rfl
    · exfalso
      unfold recognizedPattern at hrf
      simp only [Bool.or_eq_false_iff, Bool.and_eq_false_iff, beq_eq_false_iff_ne,
        ne_eq] at hrf
      rcases hrf.1.1.1.1.1.1.1.1.2 with hq | hq
      · exact hq h17.1
      · exact hq.1.2 h17.2
  by_cases h18 : nibble1 op = 8 ∧ nibble4 op = 0xE
  · refine ⟨fun hrt => ?_, fun hrf => ?_⟩
    · unfold from_opcode
      rw [if_neg h1, if_neg h2, if_neg h3, if_neg h4, if_neg h5, if_neg h6, if_neg h7, if_neg h8, if_neg h9, if_neg h10, if_neg h11, if_neg h12, if_neg h13, if_neg h14, if_neg h15, if_neg h16, if_neg h17, if_pos h18]
      rfl
    · exfalso
      unfold recognizedPattern at hrf
      simp only [Bool.or_eq_false_iff, Bool.and_eq_false_iff, beq_eq_false_iff_ne,
        ne_eq] at hrf
      rcases hrf.1.1.1.1.1.1.1.1.2 with hq | hq
      · exact hq h18.1
      · exact hq.2 h18.2
  by_cases h19 : nibble1 op = 9 ∧ nibble4 op = 0
  · refine ⟨fun hrt => ?_, fun hrf => ?_⟩
    · unfold from_opcode
      rw [if_neg h1, if_neg h2, if_neg h3, if_neg h4, if_neg h5, if_neg h6, if_neg h7, if_neg h8, if_neg h9, if_neg h10, if_neg h11, if_neg h12, if_neg h13, if_neg h14, if_neg h15, if_neg h16, if_neg h17, if_neg h18, if_pos h19]
      rfl
    · exfalso
      unfold recognizedPattern at hrf
      simp only [Bool.or_eq_false_iff, Bool.and_eq_false_iff, beq_eq_false_iff_ne,
        ne_eq] at hrf
      rcases hrf.1.1.1.1.1.1.1.2 with hq | hq
      · exact hq h19.1
      · exact hq h19.2
  by_cases h20 : nibble1 op = 0xA
  · refine ⟨fun hrt => ?_, fun hrf => ?_⟩
    · unfold from_opcode
      rw [if_neg h1, if_neg h2, if_neg h3, if_neg h4, if_neg h5, if_neg h6, if_neg h7, if_neg h8, if_neg h9, if_neg h10, if_neg h11, if_neg h12, if_neg h13, if_neg h14, if_neg h15, if_neg h16, if_neg h17, if_neg h18, if_neg h19, if_pos h20]
      rfl
    · exfalso
      unfold recognizedPattern at hrf
      simp only [Bool.or_eq_false_iff, Bool.and_eq_false_iff, beq_eq_false_iff_ne,
        ne_eq] at hrf
      exact hrf.1.1.1.1.1.1.2 h20
  by_cases h21 : nibble1 op = 0xB
  · refine ⟨fun hrt => ?_, fun hrf => ?_⟩
    · unfold from_opcode
      rw [if_neg h1, if_neg h2, if_neg h3, if_neg h4, if_neg h5, if_neg h6, if_neg h7, if_neg h8, if_neg h9, if_neg h10, if_neg h11, if_neg h12, if_neg h13, if_neg h14, if_neg h15, if_neg h16, if_neg h17, if_neg h18, if_neg h19, if_neg h20, if_pos h21]
      rfl
    · exfalso
      unfold recognizedPattern at hrf
      simp only [Bool.or_eq_false_iff, Bool.and_eq_false_iff, beq_eq_false_iff_ne,
        ne_eq] at hrf
      exact hrf.1.1.1.1.1.2 h21
  by_cases h22 : nibble1 op = 0xC
  · refine ⟨fun hrt => ?_, fun hrf => ?_⟩
    · unfold from_opcode
      rw [if_neg h1, if_neg h2, if_neg h3, if_neg h4, if_neg h5, if_neg h6, if_neg h7, if_neg h8, if_neg h9, if_neg h10, if_neg h11, if_neg h12, if_neg h13, if_neg h14, if_neg h15, if_neg h16, if_neg h17, if_neg h18, if_neg h19, if_neg h20, if_neg h21, if_pos h22]
      rfl
    · exfalso
      unfold recognizedPattern at hrf
      simp only [Bool.or_eq_false_iff, Bool.and_eq_false_iff, beq_eq_false_iff_ne,
        ne_eq] at hrf
      exact hrf.1.1.1.1.2 h22
  by_cases h23 : nibble1 op = 0xD
  · refine ⟨fun hrt => ?_, fun hrf => ?_⟩
    · unfold from_opcode
      rw [if_neg h1, if_neg h2, if_neg h3, if_neg h4, if_neg h5, if_neg h6, if_neg h7, if_neg h8, if_neg h9, if_neg h10, if_neg h11, if_neg h12, if_neg h13, if_neg h14, if_neg h15, if_neg h16, if_neg h17, if_neg h18, if_neg h19, if_neg h20, if_neg h21, if_neg h22, if_pos h23]
      rfl
    · exfalso
      unfold recognizedPattern at hrf
      simp only [Bool.or_eq_false_iff, Bool.and_eq_false_iff, beq_eq_false_iff_ne,
        ne_eq] at hrf
      exact hrf.1.1.1.2 h23
  by_cases h24 : nibble1 op = 0xE ∧ nibble3 op = 9 ∧ nibble4 op = 0xE
  · refine ⟨fun hrt => ?_, fun hrf => ?_⟩
    · unfold from_opcode
      rw [if_neg h1, if_neg h2, if_neg h3, if_neg h4, if_neg h5, if_neg h6, if_neg h7, if_neg h8, if_neg h9, if_neg h10, if_neg h11, if_neg h12, if_neg h13, if_neg h14, if_neg h15, if_neg h16, if_neg h17, if_neg h18, if_neg h19, if_neg h20, if_neg h21, if_neg h22, if_neg h23, if_pos h24]
      rfl
    · exfalso
      unfold recognizedPattern at hrf
      simp only [Bool.or_eq_false_iff, Bool.and_eq_false_iff, beq_eq_false_iff_ne,
        ne_eq] at hrf
      rcases hrf.1.1.2 with ((hq) | hq) | hq
      · exact hq h24.1
      · exact hq h24.2.1
      · exact hq h24.2.2
  by_cases h25 : nibble1 op = 0xE ∧ nibble3 op = 0xA ∧ nibble4 op = 1
  · refine ⟨fun hrt => ?_, fun hrf => ?_⟩
    · unfold from_opcode
      rw [if_neg h1, if_neg h2, if_neg h3, if_neg h4, if_neg h5, if_neg h6, if_neg h7, if_neg h8, if_neg h9, if_neg h10, if_neg h11, if_neg h12, if_neg h13, if_neg h14, if_neg h15, if_neg h16, if_neg h17, if_neg h18, if_neg h19, if_neg h20, if_neg h21, if_neg h22, if_neg h23, if_neg h24, if_pos h25]
      rfl
    · exfalso
      unfold recognizedPattern at hrf
      simp only [Bool.or_eq_false_iff, Bool.and_eq_false_iff, beq_eq_false_iff_ne,
        ne_eq] at hrf
      rcases hrf.1.2 with ((hq) | hq) | hq
      · exact hq h25.1
      · exact hq h25.2.1
      · exact hq h25.2.2
  by_cases h26 : nibble1 op = 0xF ∧ nibble3 op = 0 ∧ nibble4 op = 7
  · refine ⟨fun hrt => ?_, fun hrf => ?_⟩
    · unfold from_opcode
      rw [if_neg h1, if_neg h2, if_neg h3, if_neg h4, if_neg h5, if_neg h6, if_neg h7, if_neg h8, if_neg h9, if_neg h10, if_neg h11, if_neg h12, if_neg h13, if_neg h14, if_neg h15, if_neg h16, if_neg h17, if_neg h18, if_neg h19, if_neg h20, if_neg h21, if_neg h22, if_neg h23, if_neg h24, if_neg h25, if_pos h26]
      rfl
    · exfalso
      unfold recognizedPattern at hrf
      simp only [Bool.or_eq_false_iff, Bool.and_eq_false_iff, beq_eq_false_iff_ne,
        ne_eq] at hrf
      rcases hrf.2 with hq | hq
      · exact hq h26.1
      · rcases hq.1.1.1.1.1.1.1 with hqq | hqq
        · exact hqq h26.2.1
        · exact hqq h26.2.2
  by_cases h27 : nibble1 op = 0xF ∧ nibble3 op = 1 ∧ nibble4 op = 5
  · refine ⟨fun hrt => ?_, fun hrf => ?_⟩
    · unfold from_opcode
      rw [if_neg h1, if_neg h2, if_neg h3, if_neg h4, if_neg h5, if_neg h6, if_neg h7, if_neg h8, if_neg h9, if_neg h10, if_neg h11, if_neg h12, if_neg h13, if_neg h14, if_neg h15, if_neg h16, if_neg h17, if_neg h18, if_neg h19, if_neg h20, if_neg h21, if_neg h22, if_neg h23, if_neg h24, if_neg h25, if_neg h26, if_pos h27]
      rfl
    · exfalso
      unfold recognizedPattern at hrf
      simp only [Bool.or_eq_false_iff, Bool.and_eq_false_iff, beq_eq_false_iff_ne,
        ne_eq] at hrf
      rcases hrf.2 with hq | hq
      · exact hq h27.1
      · rcases hq.1.1.1.1.1.1.2 with hqq | hqq
        · exact hqq h27.2.1
        · exact hqq h27.2.2
  by_cases h28 : nibble1 op = 0xF ∧ nibble3 op = 1 ∧ nibble4 op = 8
  · refine ⟨fun hrt => ?_, fun hrf => ?_⟩
    · unfold from_opcode
      rw [if_neg h1, if_neg h2, if_neg h3, if_neg h4, if_neg h5, if_neg h6, if_neg h7, if_neg h8, if_neg h9, if_neg h10, if_neg h11, if_neg h12, if_neg h13, if_neg h14, if_neg h15, if_neg h16, if_neg h17, if_neg h18, if_neg h19, if_neg h20, if_neg h21, if_neg h22, if_neg h23, if_neg h24, if_neg h25, if_neg h26, if_neg h27, if_pos h28]
      rfl
    · exfalso
      unfold recognizedPattern at hrf
      simp only [Bool.or_eq_false_iff, Bool.and_eq_false_iff, beq_eq_false_iff_ne,
        ne_eq] at hrf
      rcases hrf.2 with hq | hq
      · exact hq h28.1
      · rcases hq.1.1.1.1.1.2 with hqq | hqq
        · exact hqq h28.2.1
        · exact hqq h28.2.2
  by_cases h29 : nibble1 op = 0xF ∧ nibble3 op = 2 ∧ nibble4 op = 9
  · refine ⟨fun hrt => ?_, fun hrf => ?_⟩
    · unfold from_opcode
      rw [if_neg h1, if_neg h2, if_neg h3, if_neg h4, if_neg h5, if_neg h6, if_neg h7, if_neg h8, if_neg h9, if_neg h10, if_neg h11, if_neg h12, if_neg h13, if_neg h14, if_neg h15, if_neg h16, if_neg h17, if_neg h18, if_neg h19, if_neg h20, if_neg h21, if_neg h22, if_neg h23, if_neg h24, if_neg h25, if_neg h26, if_neg h27, if_neg h28, if_pos h29]
      rfl
    · exfalso
      unfold recognizedPattern at hrf
      simp only [Bool.or_eq_false_iff, Bool.and_eq_false_iff, beq_eq_false_iff_ne,
        ne_eq] at hrf
      rcases hrf.2 with hq | hq
      · exact hq h29.1
      · rcases hq.1.1.1.1.2 with hqq | hqq
        · exact hqq h29.2.1
        · exact hqq h29.2.2
  by_cases h30 : nibble1 op = 0xF ∧ nibble3 op = 3 ∧ nibble4 op = 3
  · refine ⟨fun hrt => ?_, fun hrf => ?_⟩
    · unfold from_opcode
      rw [if_neg h1, if_neg h2, if_neg h3, if_neg h4, if_neg h5, if_neg h6, if_neg h7, if_neg h8, if_neg h9, if_neg h10, if_neg h11, if_neg h12, if_neg h13, if_neg h14, if_neg h15, if_neg h16, if_neg h17, if_neg h18, if_neg h19, if_neg h20, if_neg h21, if_neg h22, if_neg h23, if_neg h24, if_neg h25, if_neg h26, if_neg h27, if_neg h28, if_neg h29, if_pos h30]
      rfl
    · exfalso
      unfold recognizedPattern at hrf
      simp only [Bool.or_eq_false_iff, Bool.and_eq_false_iff, beq_eq_false_iff_ne,
        ne_eq] at hrf
      rcases hrf.2 with hq | hq
      · exact hq h30.1
      · rcases hq.1.1.1.2 with hqq | hqq
        · exact hqq h30.2.1
        · exact hqq h30.2.2
  by_cases h31 : nibble1 op = 0xF ∧ nibble3 op = 1 ∧ nibble4 op = 0xE
  · refine ⟨fun hrt => ?_, fun hrf => ?_⟩
    · unfold from_opcode
      rw [if_neg h1, if_neg h2, if_neg h3, if_neg h4, if_neg h5, if_neg h6, if_neg h7, if_neg h8, if_neg h9, if_neg h10, if_neg h11, if_neg h12, if_neg h13, if_neg h14, if_neg h15, if_neg h16, if_neg h17, if_neg h18, if_neg h19, if_neg h20, if_neg h21, if_neg h22, if_neg h23, if_neg h24, if_neg h25, if_neg h26, if_neg h27, if_neg h28, if_neg h29, if_neg h30, if_pos h31]
      rfl
    · exfalso
      unfold recognizedPattern at hrf
      simp only [Bool.or_eq_false_iff, Bool.and_eq_false_iff, beq_eq_false_iff_ne,
        ne_eq] at hrf
      rcases hrf.2 with hq | hq
      · exact hq h31.1
      · rcases hq.1.1.2 with hqq | hqq
        · exact hqq h31.2.1
        · exact hqq h31.2.2
  by_cases h32 : nibble1 op = 0xF ∧ nibble3 op = 5 ∧ nibble4 op = 5
  · refine ⟨fun hrt => ?_, fun hrf => ?_⟩
    · unfold from_opcode
      rw [if_neg h1, if_neg h2, if_neg h3, if_neg h4, if_neg h5, if_neg h6, if_neg h7, if_neg h8, if_neg h9, if_neg h10, if_neg h11, if_neg h12, if_neg h13, if_neg h14, if_neg h15, if_neg h16, if_neg h17, if_neg h18, if_neg h19, if_neg h20, if_neg h21, if_neg h22, if_neg h23, if_neg h24, if_neg h25, if_neg h26, if_neg h27, if_neg h28, if_neg h29, if_neg h30, if_neg h31, if_pos h32]
      rfl
    · exfalso
      unfold recognizedPattern at hrf
      simp only [Bool.or_eq_false_iff, Bool.and_eq_false_iff, beq_eq_false_iff_ne,
        ne_eq] at hrf
      rcases hrf.2 with hq | hq
      · exact hq h32.1
      · rcases hq.1.2 with hqq | hqq
        · exact hqq h32.2.1
        · exact hqq h32.2.2
  by_cases h33 : nibble1 op = 0xF ∧ nibble3 op = 6 ∧ nibble4 op = 5
  · refine ⟨fun hrt => ?_, fun hrf => ?_⟩
    · unfold from_opcode
      rw [if_neg h1, if_neg h2, if_neg h3, if_neg h4, if_neg h5, if_neg h6, if_neg h7, if_neg h8, if_neg h9, if_neg h10, if_neg h11, if_neg h12, if_neg h13, if_neg h14, if_neg h15, if_neg h16, if_neg h17, if_neg h18, if_neg h19, if_neg h20, if_neg h21, if_neg h22, if_neg h23, if_neg h24, if_neg h25, if_neg h26, if_neg h27, if_neg h28, if_neg h29, if_neg h30, if_neg h31, if_neg h32, if_pos h33]
      rfl
    · exfalso
      unfold recognizedPattern at hrf
      simp only [Bool.or_eq_false_iff, Bool.and_eq_false_iff, beq_eq_false_iff_ne,
        ne_eq] at hrf
      rcases hrf.2 with hq | hq
      · exact hq h33.1
      · rcases hq.2 with hqq | hqq
        · exact hqq h33.2.1
        · exact hqq h33.2.2
  refine ⟨fun hrt => ?_, fun hrf => ?_⟩
  · exfalso
    unfold recognizedPattern at hrt
    simp only [Bool.or_eq_true, Bool.and_eq_true, beq_iff_eq] at hrt
    rcases hrt with (((((((((((((((((hm) | hm) | hm) | hm) | hm) | hm) | hm) | hm) | hm) | hm) | hm) | hm) | hm) | hm) | hm) | hm) | hm) | hm
    · exact h1 ⟨hm.1.1.1, hm.1.1.2, hm.1.2, hm.2⟩
    · exact h2 ⟨hm.1.1.1, hm.1.1.2, hm.1.2, hm.2⟩
    · exact h3 hm
    · exact h4 hm
    · exact h5 hm
    · exact h6 hm
    · exact h7 hm
    · exact h8 hm
    · exact h9 hm
    · obtain ⟨hm1, hm2⟩ := hm
      rcases hm2 with ((((((((hv) | hv) | hv) | hv) | hv) | hv) | hv) | hv) | hv
      · exact h10 ⟨hm1, hv⟩
      · exact h11 ⟨hm1, hv⟩
      · exact h12 ⟨hm1, hv⟩
      · exact h13 ⟨hm1, hv⟩
      · exact h14 ⟨hm1, hv⟩
      · exact h15 ⟨hm1, hv⟩
      · exact h16 ⟨hm1, hv⟩
      · exact h17 ⟨hm1, hv⟩
      · exact h18 ⟨hm1, hv⟩
    · exact h19 hm
    · exact h20 hm
    · exact h21 hm
    · exact h22 hm
    · exact h23 hm
    · exact h24 ⟨hm.1.1, hm.1.2, hm.2⟩
    · exact h25 ⟨hm.1.1, hm.1.2, hm.2⟩
    · obtain ⟨hm1, hm2⟩ := hm
      rcases hm2 with (((((((hv) | hv) | hv) | hv) | hv) | hv) | hv) | hv
      · exact h26 ⟨hm1, hv.1, hv.2⟩
      · exact h27 ⟨hm1, hv.1, hv.2⟩
      · exact h28 ⟨hm1, hv.1, hv.2⟩
      · exact h29 ⟨hm1, hv.1, hv.2⟩
      · exact h30 ⟨hm1, hv.1, hv.2⟩
      · exact h31 ⟨hm1, hv.1, hv.2⟩
      · exact h32 ⟨hm1, hv.1, hv.2⟩
      · exact h33 ⟨hm1, hv.1, hv.2⟩
  · unfold from_opcode
    rw [if_neg h1, if_neg h2, if_neg h3, if_neg h4, if_neg h5, if_neg h6, if_neg h7, if_neg h8, if_neg h9, if_neg h10, if_neg h11, if_neg h12, if_neg h13, if_neg h14, if_neg h15, if_neg h16, if_neg h17, if_neg h18, if_neg h19, if_neg h20, if_neg h21, if_neg h22, if_neg h23, if_neg h24, if_neg h25, if_neg h26, if_neg h27, if_neg h28, if_neg h29, if_neg h30, if_neg h31, if_neg h32, if_neg h33]

/-- Witness for `c5_decode_total` at a concrete opcode: `0x8AB8` (an ALU
sub-operation not in the table) is unrecognized and decodes to
`UnknownOpcode 0x8AB8`. -/
theorem c5_decode_total_witness :
    (recognizedPattern 0x8AB8 = true → (from_opcode 0x8AB8).isOk = true) ∧
    (recognizedPattern 0x8AB8 = false → from_opcode 0x8AB8 = .error (.UnknownOpcode 0x8AB8)) :=
  c5_decode_total 0x8AB8 (by decide)

theorem wf_newDisplay : WfScreen newDisplay := by
  constructor
  · simp [newDisplay]
  · intro row hrow
    rw [List.eq_of_mem_replicate hrow]
    simp

theorem wf_row_length (scr : Display) (h : WfScreen scr) (r : Nat) (hr : r < 32) :
    (scr.getD r []).length = 64 := by
  have hlt : r < scr.length := by rw [h.1]; omega
  apply h.2
  rw [List.getD_eq_getElem?_getD, List.getElem?_eq_getElem hlt]
  simp [List.getElem_mem]

theorem wf_setCell (scr : Display) (h : WfScreen scr) (rr c v : Nat) (hrr : rr < 32) :
    WfScreen (setCell scr rr c v) := by
  constructor
  · rw [setCell, length_set_eq]
    exact h.1
  · intro row hrow
    rcases List.mem_or_eq_of_mem_set hrow with hmem | heq
    · exact h.2 row hmem
    · rw [heq, length_set_eq]
      exact wf_row_length scr h rr hrr

theorem getCell_setCell_self (scr : Display) (h : WfScreen scr) (rr c v : Nat)
    (hr : rr < 32) (hc : c < 64) :
    getCell (setCell scr rr c v) rr c = v := by
  rw [getCell, setCell, getD_set_self _ _ _ _ (by rw [h.1]; omega),
      getD_set_self _ _ _ _ (by rw [wf_row_length scr h rr hr]; omega)]

theorem getCell_setCell_ne (scr : Display) (h : WfScreen scr) (rr c r2 c2 v : Nat)
    (hr : rr < 32) (hne : rr ≠ r2 ∨ c ≠ c2) :
    getCell (setCell scr rr c v) r2 c2 = getCell scr r2 c2 := by
  by_cases hrr : rr = r2
  · subst hrr
    have hcne : c ≠ c2 := by
      rcases hne with hne | hne
      · exact absurd rfl hne
      · exact hne
    rw [getCell, setCell, getD_set_self _ _ _ _ (by rw [h.1]; omega),
        getD_set_ne _ _ _ _ _ hcne, getCell]
  · rw [getCell, setCell, getD_set_ne _ _ _ _ _ hrr, getCell]

theorem drawCols_cons (scr : Display) (row col bit : Nat) (rest : List Nat) (did : Bool)
    (hcol : ¬ 64 ≤ col) :
    drawCols scr row col (bit :: rest) did =
      drawCols
        (if bit = 1 then
           (if getCell scr row col = 1 then setCell scr row col 0 else setCell scr row col 1)
         else scr)
        row (col + 1) rest
        (if bit = 1 then (if getCell scr row col = 1 then true else did) else did) := by
  rw [drawCols, if_neg hcol]
  by_cases hbit : bit = 1 <;> by_cases hcell : getCell scr row col = 1 <;>
    simp [hbit, hcell]

theorem drawCols_spec :
    ∀ (bits : List Nat) (scr : Display) (row col : Nat) (did : Bool),
      WfScreen scr → row < 32 →
      WfScreen (drawCols scr row col bits did).1 ∧
      ∀ r c, r < 32 → c < 64 →
        getCell (drawCols scr row col bits did).1 r c =
          if r = row ∧ col ≤ c ∧ c < col + bits.length ∧ bits.getD (c - col) 0 = 1 then
            (if getCell scr r c = 1 then 0 else 1)
          else getCell scr r c := by
  intro bits
  induction bits with
  | nil =>
    intro scr row col did hwf hrow
    refine ⟨hwf, ?_⟩
    intro r c hr hc
    rw [drawCols]
    rw [if_neg (by rintro ⟨h1, h2, h3, h4⟩; simp at h3; omega)]
  | cons bit rest ih =>
    intro scr row col did hwf hrow
    by_cases hcol : 64 ≤ col
    · rw [drawCols, if_pos hcol]
      refine ⟨hwf, ?_⟩
      intro r c hr hc
      rw [if_neg (by rintro ⟨h1, h2, h3, h4⟩; omega)]
    · rw [drawCols_cons scr row col bit rest did hcol]
      set scr1 := (if bit = 1 then
          (if getCell scr row col = 1 then setCell scr row col 0 else setCell scr row col 1)
        else scr) with hscr1
      set did1 := (if bit = 1 then (if getCell scr row col = 1 then true else did) else did)
        with hdid1
      have hwf1 : WfScreen scr1 := by
        rw [hscr1]
        split_ifs <;> first | exact hwf | exact wf_setCell scr hwf row col _ hrow
      have hmain := ih scr1 row (col + 1) did1 hwf1 hrow
      refine ⟨hmain.1, ?_⟩
      intro r c hr hc
      rw [hmain.2 r c hr hc]
      by_cases hrrow : r = row
      · subst hrrow
        by_cases hcc : c = col
        · subst hcc
          rw [if_neg (by rintro ⟨_, h2, _, _⟩; omega)]
          have hgd0 : (bit :: rest).getD (c - c) 0 = bit := by
            rw [Nat.sub_self]
            rfl
          by_cases hbit : bit = 1
          · rw [if_pos ⟨rfl, Nat.le_refl c, by simp, by rw [hgd0]; exact hbit⟩]
            rw [hscr1, if_pos hbit]
            by_cases hcell : getCell scr r c = 1
            · rw [if_pos hcell, if_pos hcell]
              exact getCell_setCell_self scr hwf r c 0 hr hc
            · rw [if_neg hcell, if_neg hcell]
              exact getCell_setCell_self scr hwf r c 1 hr hc
          · rw [if_neg (by rintro ⟨_, _, _, h4⟩; rw [hgd0] at h4; exact hbit h4)]
            rw [hscr1, if_neg hbit]
        · by_cases hgt : col < c
          · have hgd : (bit :: rest).getD (c - col) 0 = rest.getD (c - (col + 1)) 0 := by
              have hc1 : c - col = (c - (col + 1)) + 1 := by omega
              rw [hc1]
              rfl
            have hcell_eq : getCell scr1 r c = getCell scr r c := by
              rw [hscr1]
              split_ifs <;>
                first
                  | rfl
                  | exact getCell_setCell_ne scr hwf r col r c _ hr (Or.inr (by omega))
            rw [hcell_eq]
            have hBA : (r = r ∧ col + 1 ≤ c ∧ c < col + 1 + rest.length ∧
                rest.getD (c - (col + 1)) 0 = 1) ↔
                (r = r ∧ col ≤ c ∧ c < col + (bit :: rest).length ∧
                (bit :: rest).getD (c - col) 0 = 1) := by
              constructor
              · rintro ⟨_, h2, h3, h4⟩
                exact ⟨rfl, by omega, by simp; omega, by rw [hgd]; exact h4⟩
              · rintro ⟨_, h2, h3, h4⟩
                exact ⟨rfl, by omega, by simp at h3; omega, by rw [← hgd]; exact h4⟩
            exact if_congr hBA rfl rfl
          · -- c < col
            have hlt : c < col := by omega
            rw [if_neg (by rintro ⟨_, h2, _, _⟩; omega),
                if_neg (by rintro ⟨_, h2, _, _⟩; omega)]
            rw [hscr1]
            split_ifs <;>
              first
                | rfl
                | exact getCell_setCell_ne scr hwf r col r c _ hr (Or.inr (by omega))
      · rw [if_neg (by rintro ⟨h1, _⟩; exact hrrow h1),
            if_neg (by rintro ⟨h1, _⟩; exact hrrow h1)]
        rw [hscr1]
        split_ifs <;>
          first
            | rfl
            | exact getCell_setCell_ne scr hwf row col r c _ hrow (Or.inl (by omega))

theorem drawRows_cons (scr : Display) (x row0 data : Nat) (rest : List Nat) (did : Bool)
    (hrow : ¬ 32 ≤ row0) :
    drawRows scr x row0 (data :: rest) did =
      drawRows (drawCols scr row0 x (byte_to_bits data) did).1 x (row0 + 1) rest
        (drawCols scr row0 x (byte_to_bits data) did).2 := by
  rw [drawRows, if_neg hrow]

theorem byte_to_bits_length (b : Nat) : (byte_to_bits b).length = 8 := by
  simp [byte_to_bits]

theorem byte_to_bits_getD (b j : Nat) (hj : j < 8) :
    (byte_to_bits b).getD j 0 = (b >>> (7 - j)) &&& 1 := by
  interval_cases j <;> rfl

theorem drawRows_spec :
    ∀ (sprite : List Nat) (scr : Display) (x row0 : Nat) (did : Bool),
      WfScreen scr →
      WfScreen (drawRows scr x row0 sprite did).1 ∧
      ∀ r c, r < 32 → c < 64 →
        getCell (drawRows scr x row0 sprite did).1 r c =
          if row0 ≤ r ∧ r < row0 + sprite.length ∧ x ≤ c ∧ c < x + 8 ∧
             (byte_to_bits (sprite.getD (r - row0) 0)).getD (c - x) 0 = 1 then
            (if getCell scr r c = 1 then 0 else 1)
          else getCell scr r c := by
  intro sprite
  induction sprite with
  | nil =>
    intro scr x row0 did hwf
    refine ⟨hwf, ?_⟩
    intro r c hr hc
    rw [drawRows, if_neg (by rintro ⟨h1, h2, _⟩; simp at h2; omega)]
  | cons data rest ih =>
    intro scr x row0 did hwf
    by_cases hrow : 32 ≤ row0
    · rw [drawRows, if_pos hrow]
      refine ⟨hwf, ?_⟩
      intro r c hr hc
      rw [if_neg (by rintro ⟨h1, _⟩; omega)]
    · rw [drawRows_cons scr x row0 data rest did hrow]
      have hrow32 : row0 < 32 := by omega
      have hcols := drawCols_spec (byte_to_bits data) scr row0 x did hwf hrow32
      set scr1 := (drawCols scr row0 x (byte_to_bits data) did).1 with hscr1
      have hmain := ih scr1 x (row0 + 1) (drawCols scr row0 x (byte_to_bits data) did).2 hcols.1
      refine ⟨hmain.1, ?_⟩
      intro r c hr hc
      rw [hmain.2 r c hr hc]
      by_cases hrr : r = row0
      · rw [if_neg (by rintro ⟨h1, _⟩; omega)]
        rw [hcols.2 r c hr hc]
        have hBA : (r = row0 ∧ x ≤ c ∧ c < x + (byte_to_bits data).length ∧
            (byte_to_bits data).getD (c - x) 0 = 1) ↔
            (row0 ≤ r ∧ r < row0 + (data :: rest).length ∧ x ≤ c ∧ c < x + 8 ∧
            (byte_to_bits ((data :: rest).getD (r - row0) 0)).getD (c - x) 0 = 1) := by
          rw [byte_to_bits_length]
          subst hrr
          rw [Nat.sub_self]
          constructor
          · rintro ⟨_, h2, h3, h4⟩
            exact ⟨Nat.le_refl r, by simp, h2, h3, h4⟩
          · rintro ⟨_, _, h3, h4, h5⟩
            exact ⟨rfl, h3, h4, h5⟩
        exact if_congr hBA rfl rfl
      · have hcell_eq : getCell scr1 r c = getCell scr r c := by
          rw [hcols.2 r c hr hc, if_neg (by rintro ⟨h1, _⟩; exact hrr h1)]
        rw [hcell_eq]
        by_cases hge : row0 + 1 ≤ r
        · have hgd : (data :: rest).getD (r - row0) 0 = rest.getD (r - (row0 + 1)) 0 := by
            have h1 : r - row0 = (r - (row0 + 1)) + 1 := by omega
            rw [h1]
            rfl
          have hBA : (row0 + 1 ≤ r ∧ r < row0 + 1 + rest.length ∧ x ≤ c ∧ c < x + 8 ∧
              (byte_to_bits (rest.getD (r - (row0 + 1)) 0)).getD (c - x) 0 = 1) ↔
              (row0 ≤ r ∧ r < row0 + (data :: rest).length ∧ x ≤ c ∧ c < x + 8 ∧
              (byte_to_bits ((data :: rest).getD (r - row0) 0)).getD (c - x) 0 = 1) := by
            rw [hgd]
            constructor
            · rintro ⟨h1, h2, h3, h4, h5⟩
              exact ⟨by omega, by simp; omega, h3, h4, h5⟩
            · rintro ⟨h1, h2, h3, h4, h5⟩
              exact ⟨by omega, by simp at h2; omega, h3, h4, h5⟩
          exact if_congr hBA rfl rfl
        · rw [if_neg (by rintro ⟨h1, _⟩; omega), if_neg (by rintro ⟨h1, _⟩; omega)]

/-- Claim C3: for every starting register pair and every sprite byte list,
`draw` only toggles cells inside the fixed 64x32 grid: the result is a
well-formed 32x64 grid, and a cell `(r, c)` is toggled (XORed) exactly when
it lies in the sprite's rectangle — at or right of / below the (wrapped)
start `(reg_x % 64, reg_y % 32)`, within 8 columns and `sprite.length`
rows — with the corresponding sprite bit set; every other cell, including
every cell of a row or column that would fall past the bottom or right
edge, is unchanged — nothing wraps around and no out-of-bounds cell is
ever accessed. -/
theorem c3_draw_clipping (reg_x reg_y : Nat) (sprite : List Nat) (scr : Display)
    (h : WfScreen scr) :
    WfScreen (draw reg_x reg_y sprite scr).1 ∧
    ∀ r c, r < 32 → c < 64 →
      getCell (draw reg_x reg_y sprite scr).1 r c =
        if reg_y % 32 ≤ r ∧ r < reg_y % 32 + sprite.length ∧
           reg_x % 64 ≤ c ∧ c < reg_x % 64 + 8 ∧
           (sprite.getD (r - reg_y % 32) 0 >>> (7 - (c - reg_x % 64))) &&& 1 = 1 then
          (if getCell scr r c = 1 then 0 else 1)
        else getCell scr r c := by
  have hmain := drawRows_spec sprite scr (reg_x % 64) (reg_y % 32) false h
  have hdr : draw reg_x reg_y sprite scr =
      drawRows scr (reg_x % 64) (reg_y % 32) sprite false := rfl
  rw [hdr]
  refine ⟨hmain.1, ?_⟩
  intro r c hr hc
  rw [hmain.2 r c hr hc]
  have hBA : (reg_y % 32 ≤ r ∧ r < reg_y % 32 + sprite.length ∧ reg_x % 64 ≤ c ∧
      c < reg_x % 64 + 8 ∧
      (byte_to_bits (sprite.getD (r - reg_y % 32) 0)).getD (c - reg_x % 64) 0 = 1) ↔
      (reg_y % 32 ≤ r ∧ r < reg_y % 32 + sprite.length ∧ reg_x % 64 ≤ c ∧
      c < reg_x % 64 + 8 ∧
      (sprite.getD (r - reg_y % 32) 0 >>> (7 - (c - reg_x % 64))) &&& 1 = 1) := by
    constructor
    · rintro ⟨h1, h2, h3, h4, h5⟩
      refine ⟨h1, h2, h3, h4, ?_⟩
      rw [← byte_to_bits_getD _ _ (by omega)]
      exact h5
    · rintro ⟨h1, h2, h3, h4, h5⟩
      refine ⟨h1, h2, h3, h4, ?_⟩
      rw [byte_to_bits_getD _ _ (by omega)]
      exact h5
  exact if_congr hBA rfl rfl

/-- Witness for `c3_draw_clipping` on the empty screen with a 3-row sprite
drawn at (60, 30): the in-grid cell (31, 63) is toggled on; rows past the
bottom edge and columns past the right edge have no in-grid counterpart
and every other cell is unchanged. -/
theorem c3_draw_clipping_witness :
    getCell (draw 60 30 [0xFF, 0xFF, 0xFF] newDisplay).1 31 63 =
      if 30 % 32 ≤ 31 ∧ 31 < 30 % 32 + [0xFF, 0xFF, 0xFF].length ∧
         60 % 64 ≤ 63 ∧ 63 < 60 % 64 + 8 ∧
         ([0xFF, 0xFF, 0xFF].getD (31 - 30 % 32) 0 >>> (7 - (63 - 60 % 64))) &&& 1 = 1 then
        (if getCell newDisplay 31 63 = 1 then 0 else 1)
      else getCell newDisplay 31 63 :=
  (c3_draw_clipping 60 30 [0xFF, 0xFF, 0xFF] newDisplay wf_newDisplay).2 31 63
    (by decide) (by decide)

end Chip8
